import Mathlib

set_option maxRecDepth 8000

/-!
Shallow embedding of the webgl-2d sprite batching renderer
(MakeNowJust/webgl-2d, src/index.js).

Numbers are modelled as rationals: every arithmetic operation the renderer
performs on coordinates, colors and texture regions (addition, subtraction,
multiplication, division) is embedded exactly.  JavaScript division by zero
(which yields Infinity/NaN) diverges from rational division (which yields 0);
no claim below touches a zero-sized image, so this difference is inert.

The rotation path calls Math.sin / Math.cos through the gl-mat3 library.
The embedding is parametrised by two functions cf sf : Q -> Q standing for
cosine and sine; every theorem about rotation holds for arbitrary cf, sf,
which makes the statements purely about the algebraic structure of the code.

GPU calls are modelled as an event trace.  The event alphabet contains the
three calls the claims talk about: texture uploads (texImage2D), vertex data
uploads (bufferSubData) and draw calls (drawElements).  Other GL calls
(uniform1iv, bindTexture, activeTexture, ...) carry no claim content and are
not traced.
-/

namespace WebGL2D

/-! ## Constants, from src/index.js lines 6-28 -/

def VERTEX_SIZE : ℕ := 2
def COLOR_SIZE : ℕ := 4
def REGION_SIZE : ℕ := 2
def TEXTURE_SIZE : ℕ := 1

def ELEMENT_SIZE : ℕ := VERTEX_SIZE + COLOR_SIZE + REGION_SIZE + TEXTURE_SIZE

def VERTEX_ELEMENT : ℕ := 0
def COLOR_ELEMENT : ℕ := VERTEX_ELEMENT + VERTEX_SIZE
def REGION_ELEMENT : ℕ := COLOR_ELEMENT + COLOR_SIZE
def TEXTURE_ELEMENT : ℕ := REGION_ELEMENT + REGION_SIZE

def ELEMENTS_PER_QUAD : ℕ := 4
def INDICES_PER_QUAD : ℕ := 6

def MAX_LENGTH : ℕ := 16000

/-! ## Data model -/

/-- An image handle: identity (JavaScript object reference, used as the Map
key) plus the two pixel-dimension properties the renderer reads. -/
structure Image where
  id : ℕ
  naturalWidth : ℚ
  naturalHeight : ℚ
deriving DecidableEq

/-- The current draw color, an RGBA quadruple of floats
(the renderer field this.color, initialised to [1, 1, 1, 1]). -/
structure Color where
  r : ℚ
  g : ℚ
  b : ℚ
  a : ℚ
deriving DecidableEq

/-- Traced GPU calls relevant to the claims. -/
inductive GLEvent where
  | texImage2D (unit : ℕ) (imgId : ℕ)
  | bufferSubData (data : List ℚ)
  | drawElements (count : ℕ)
deriving DecidableEq

/-- The mutable renderer state: the fields of the Renderer class that the
batching core reads and writes.  The stream buffer is a Float32Array,
modelled as an Array of rationals whose size plays the role of the typed
array length. -/
structure RState where
  length : ℕ
  sbSize : ℕ
  sbOffset : ℕ
  stream : Array ℚ
  nextUnit : ℕ
  cache : List (ℕ × ℕ)
  color : Color
deriving DecidableEq

/-- Reading one float from the stream buffer (in-bounds reads only are ever
relevant; the default is never observed by any theorem below). -/
def streamGet (s : RState) (i : ℕ) : ℚ :=
  s.stream.getD i 0

/-- TypedArray.prototype.set with target offset 0: element k of dst becomes
src[k] for k < src.length, other elements are unchanged.  (JavaScript throws
when src is longer than dst; the renderer only ever copies into a strictly
larger array, so that case never arises.) -/
def taSet (dst src : Array ℚ) : Array ℚ :=
  Array.ofFn fun i : Fin dst.size =>
    if h : (i : ℕ) < src.size then src[(i : ℕ)] else dst[i]

/-! ## gl-mat3 / gl-vec2, the external matrix library used by drawImage.
Column-major 3x3 matrix with entries m0..m8 as indexed by the library. -/

structure Mat3 where
  m0 : ℚ
  m1 : ℚ
  m2 : ℚ
  m3 : ℚ
  m4 : ℚ
  m5 : ℚ
  m6 : ℚ
  m7 : ℚ
  m8 : ℚ
deriving DecidableEq

/-- mat3.identity. -/
def mat3identity : Mat3 := ⟨1, 0, 0, 0, 1, 0, 0, 0, 1⟩

/-- mat3.translate(out, a, v). -/
def mat3translate (a : Mat3) (x y : ℚ) : Mat3 :=
  { a with
    m6 := x * a.m0 + y * a.m3 + a.m6
    m7 := x * a.m1 + y * a.m4 + a.m7
    m8 := x * a.m2 + y * a.m5 + a.m8 }

/-- mat3.rotate(out, a, rad), with s = sin(rad) and c = cos(rad) supplied by
the trigonometry parameters. -/
def mat3rotate (cf sf : ℚ → ℚ) (a : Mat3) (rad : ℚ) : Mat3 :=
  let s := sf rad
  let c := cf rad
  { a with
    m0 := c * a.m0 + s * a.m3
    m1 := c * a.m1 + s * a.m4
    m2 := c * a.m2 + s * a.m5
    m3 := c * a.m3 - s * a.m0
    m4 := c * a.m4 - s * a.m1
    m5 := c * a.m5 - s * a.m2 }

/-- vec2.transformMat3(out, a, m). -/
def transformMat3 (p : ℚ × ℚ) (m : Mat3) : ℚ × ℚ :=
  (m.m0 * p.1 + m.m3 * p.2 + m.m6, m.m1 * p.1 + m.m4 * p.2 + m.m7)

/-! ## Renderer operations -/

/-- Map.prototype lookup on the texture cache: the cache is an association
list in insertion order with unique keys (Map.set is only reached when
Map.has is false). -/
def cacheLookup (cache : List (ℕ × ℕ)) (k : ℕ) : Option ℕ :=
  (cache.find? fun p => p.1 == k).map Prod.snd

/-- Renderer.uploadImage (src/index.js lines 299-320): cache hit returns the
cached unit with no GPU work; cache miss assigns the next sequential unit,
performs one texture upload, stores the mapping and returns the new unit. -/
def uploadImage (s : RState) (image : Image) : ℕ × RState × List GLEvent :=
  match cacheLookup s.cache image.id with
  | some unit => (unit, s, [])
  | none =>
    let unit := s.nextUnit
    (unit,
     { s with nextUnit := unit + 1, cache := s.cache ++ [(image.id, unit)] },
     [GLEvent.texImage2D unit image.id])

/-- Renderer.reset (src/index.js lines 322-339): zeroes the write offset and
the pending quad count.  The sampler-uniform and texture-bind GL calls it
performs are outside the traced event alphabet. -/
def reset (s : RState) : RState × List GLEvent :=
  ({ s with sbOffset := 0, length := 0 }, [])

/-- Renderer.flush (src/index.js lines 345-366): when quads are pending,
upload exactly the written stream buffer segment, issue one indexed draw of
length * 6 indices, and zero the counters; otherwise do nothing. -/
def flush (s : RState) : RState × List GLEvent :=
  if 0 < s.length then
    let n := s.length * ELEMENT_SIZE * ELEMENTS_PER_QUAD
    ({ s with sbOffset := 0, length := 0 },
     [GLEvent.bufferSubData ((s.stream.extract 0 n).toList),
      GLEvent.drawElements (s.length * INDICES_PER_QUAD)])
  else (s, [])

/-- Renderer.resizeSB (src/index.js lines 487-492): double sbSize, allocate a
fresh zero-filled array of the new size and copy the old contents into its
front with TypedArray.set. -/
def resizeSB (s : RState) : RState :=
  let newSize := s.sbSize <<< 1
  { s with
    sbSize := newSize
    stream := taSet (Array.mkArray (newSize * ELEMENT_SIZE * ELEMENTS_PER_QUAD) 0) s.stream }

/-- The corner computation of drawImage (src/index.js lines 399-420): the
four axis-aligned corners, transformed when rotateAngle is nonzero by the
gl-mat3 chain translate(pivot) * rotate(angle) * translate(-pivot). -/
def quadCorners (cf sf : ℚ → ℚ) (x y width height rotateAngle rotateOriginX rotateOriginY : ℚ) :
    (ℚ × ℚ) × (ℚ × ℚ) × (ℚ × ℚ) × (ℚ × ℚ) :=
  let p0 := (x, y)
  let p1 := (x + width, y)
  let p2 := (x, y + height)
  let p3 := (x + width, y + height)
  if rotateAngle ≠ 0 then
    let tx := x + rotateOriginX
    let ty := y + rotateOriginY
    let m := mat3translate (mat3rotate cf sf (mat3translate mat3identity tx ty) rotateAngle) (-tx) (-ty)
    (transformMat3 p0 m, transformMat3 p1 m, transformMat3 p2 m, transformMat3 p3 m)
  else
    (p0, p1, p2, p3)

/-- The 36 stream-buffer stores of drawImage (src/index.js lines 433-459), in
source order: the 8 vertex coordinates, the 4 color copies (each
stream.set(color, idx + COLOR_ELEMENT) expanded to its 4 element stores),
the 8 region coordinates, and the 4 texture-unit stores. -/
def writeQuadStream (st : Array ℚ) (idx0 : ℕ)
    (v0x v0y v1x v1y v2x v2y v3x v3y r g b a r0 r1 r2 r3 u : ℚ) : Array ℚ :=
  let idx1 := idx0 + ELEMENT_SIZE
  let idx2 := idx1 + ELEMENT_SIZE
  let idx3 := idx2 + ELEMENT_SIZE
  st.setD (idx0 + VERTEX_ELEMENT + 0) v0x
    |>.setD (idx0 + VERTEX_ELEMENT + 1) v0y
    |>.setD (idx1 + VERTEX_ELEMENT + 0) v1x
    |>.setD (idx1 + VERTEX_ELEMENT + 1) v1y
    |>.setD (idx2 + VERTEX_ELEMENT + 0) v2x
    |>.setD (idx2 + VERTEX_ELEMENT + 1) v2y
    |>.setD (idx3 + VERTEX_ELEMENT + 0) v3x
    |>.setD (idx3 + VERTEX_ELEMENT + 1) v3y
    |>.setD (idx0 + COLOR_ELEMENT + 0) r
    |>.setD (idx0 + COLOR_ELEMENT + 1) g
    |>.setD (idx0 + COLOR_ELEMENT + 2) b
    |>.setD (idx0 + COLOR_ELEMENT + 3) a
    |>.setD (idx1 + COLOR_ELEMENT + 0) r
    |>.setD (idx1 + COLOR_ELEMENT + 1) g
    |>.setD (idx1 + COLOR_ELEMENT + 2) b
    |>.setD (idx1 + COLOR_ELEMENT + 3) a
    |>.setD (idx2 + COLOR_ELEMENT + 0) r
    |>.setD (idx2 + COLOR_ELEMENT + 1) g
    |>.setD (idx2 + COLOR_ELEMENT + 2) b
    |>.setD (idx2 + COLOR_ELEMENT + 3) a
    |>.setD (idx3 + COLOR_ELEMENT + 0) r
    |>.setD (idx3 + COLOR_ELEMENT + 1) g
    |>.setD (idx3 + COLOR_ELEMENT + 2) b
    |>.setD (idx3 + COLOR_ELEMENT + 3) a
    |>.setD (idx0 + REGION_ELEMENT + 0) r0
    |>.setD (idx0 + REGION_ELEMENT + 1) r1
    |>.setD (idx1 + REGION_ELEMENT + 0) r2
    |>.setD (idx1 + REGION_ELEMENT + 1) r1
    |>.setD (idx2 + REGION_ELEMENT + 0) r0
    |>.setD (idx2 + REGION_ELEMENT + 1) r3
    |>.setD (idx3 + REGION_ELEMENT + 0) r2
    |>.setD (idx3 + REGION_ELEMENT + 1) r3
    |>.setD (idx0 + TEXTURE_ELEMENT) u
    |>.setD (idx1 + TEXTURE_ELEMENT) u
    |>.setD (idx2 + TEXTURE_ELEMENT) u
    |>.setD (idx3 + TEXTURE_ELEMENT) u

/-- The body of drawImage after the transparency and capacity checks
(src/index.js lines 394-462): corner computation, region normalization,
texture-unit resolution, the 36 stream stores, and the counter updates. -/
def drawImageCore (cf sf : ℚ → ℚ) (s : RState) (image : Image)
    (x y width height regionX regionY regionWidth regionHeight
     rotateAngle rotateOriginX rotateOriginY : ℚ) : RState × List GLEvent :=
  let idx0 := s.sbOffset
  let cs := quadCorners cf sf x y width height rotateAngle rotateOriginX rotateOriginY
  let v0 := cs.1
  let v1 := cs.2.1
  let v2 := cs.2.2.1
  let v3 := cs.2.2.2
  let r0 := regionX / image.naturalWidth
  let r1 := regionY / image.naturalHeight
  let r2 := (regionX + regionWidth) / image.naturalWidth
  let r3 := (regionY + regionHeight) / image.naturalHeight
  let up := uploadImage s image
  let unit := up.1
  let s3 := up.2.1
  let st := writeQuadStream s3.stream idx0 v0.1 v0.2 v1.1 v1.2 v2.1 v2.2 v3.1 v3.2
              s.color.r s.color.g s.color.b s.color.a r0 r1 r2 r3 (unit : ℚ)
  ({ s3 with
      stream := st
      sbOffset := s3.sbOffset + ELEMENT_SIZE * ELEMENTS_PER_QUAD
      length := s3.length + 1 },
   up.2.2)

/-- Renderer.drawImage (src/index.js lines 382-463): the transparent-color
short circuit, the per-flush-cap flush, the stream-buffer growth check, and
the quad write.  The three rotation arguments default to 0 in the source;
callers here always pass them explicitly. -/
def drawImage (cf sf : ℚ → ℚ) (s : RState) (image : Image)
    (x y width height regionX regionY regionWidth regionHeight : ℚ)
    (rotateAngle rotateOriginX rotateOriginY : ℚ) :
    RState × List GLEvent :=
  if s.color.a < 1 / 256 then (s, [])
  else
    let fr := if MAX_LENGTH ≤ s.length then flush s else (s, [])
    let s1 := fr.1
    let s2 := if s1.sbSize ≤ s1.length then resizeSB s1 else s1
    let core := drawImageCore cf sf s2 image x y width height
                  regionX regionY regionWidth regionHeight
                  rotateAngle rotateOriginX rotateOriginY
    (core.1, fr.2 ++ core.2)

/-- Renderer.createIB (src/index.js lines 468-482): the static index table,
entry i being pattern[i mod 6] + floor(i / 6) * 4 over the triangulation
pattern [0, 1, 2, 2, 1, 3]. -/
def createIB : List ℕ :=
  (List.range (MAX_LENGTH * INDICES_PER_QUAD)).map fun i =>
    [0, 1, 2, 2, 1, 3].getD (i % INDICES_PER_QUAD) 0 + i / INDICES_PER_QUAD * ELEMENTS_PER_QUAD

/-- The Uint16Array the index table is stored into: every entry reduced
modulo 2^16. -/
def createIB16 : List ℕ :=
  createIB.map (· % 65536)

/-- The renderer state established by the constructor
(src/index.js lines 165-270): empty batch, initial stream-buffer capacity of
256 quads, zero-filled backing store, empty texture cache, opaque white draw
color. -/
def initialState : RState :=
  { length := 0
    sbSize := 256
    sbOffset := 0
    stream := Array.mkArray (256 * (ELEMENT_SIZE * ELEMENTS_PER_QUAD)) 0
    nextUnit := 0
    cache := []
    color := ⟨1, 1, 1, 1⟩ }

/-- The color transform of the vertex shader (src/index.js line 58):
vColor = vec4(aColor.rgb * aColor.a, aColor.a). -/
def vertexShaderColor (c : Color) : Color :=
  ⟨c.r * c.a, c.g * c.a, c.b * c.a, c.a⟩

/-- The value drawImage stores at slot j of a quad record (j < 36), in the
vertex-record layout of section 3 of the design. -/
def quadValAt (j : ℕ) (v0x v0y v1x v1y v2x v2y v3x v3y r g b a r0 r1 r2 r3 u : ℚ) : ℚ :=
  if j = 0 then v0x else if j = 1 then v0y else
  if j = 2 then r else if j = 3 then g else if j = 4 then b else if j = 5 then a else
  if j = 6 then r0 else if j = 7 then r1 else if j = 8 then u else
  if j = 9 then v1x else if j = 10 then v1y else
  if j = 11 then r else if j = 12 then g else if j = 13 then b else if j = 14 then a else
  if j = 15 then r2 else if j = 16 then r1 else if j = 17 then u else
  if j = 18 then v2x else if j = 19 then v2y else
  if j = 20 then r else if j = 21 then g else if j = 22 then b else if j = 23 then a else
  if j = 24 then r0 else if j = 25 then r3 else if j = 26 then u else
  if j = 27 then v3x else if j = 28 then v3y else
  if j = 29 then r else if j = 30 then g else if j = 31 then b else if j = 32 then a else
  if j = 33 then r2 else if j = 34 then r3 else u


/-! ## The renderer invariant and reachable states -/

/-- Bookkeeping invariant of the renderer state: write offset tracks the
pending quad count, the backing store has exactly sbSize quad records, the
pending count fits both the stream capacity and the per-flush cap, and the
capacity is 256 times a power of two. -/
structure Inv (s : RState) : Prop where
  hoff : s.sbOffset = s.length * 36
  hsize : s.stream.size = s.sbSize * 36
  hlen : s.length ≤ s.sbSize
  hcap : s.length ≤ MAX_LENGTH
  hpow : ∃ k, s.sbSize = 256 * 2 ^ k

/-- States reachable from the constructor state through the public renderer
operations. -/
inductive Reachable (cf sf : ℚ → ℚ) : RState → Prop where
  | init : Reachable cf sf initialState
  | draw (s : RState) (image : Image) (x y width height rx ry rw rh ang ox oy : ℚ) :
      Reachable cf sf s →
      Reachable cf sf (drawImage cf sf s image x y width height rx ry rw rh ang ox oy).1
  | flushStep (s : RState) : Reachable cf sf s → Reachable cf sf (flush s).1
  | resetStep (s : RState) : Reachable cf sf s → Reachable cf sf (reset s).1


/-! ## Batched drawImage calls and the per-quad correctness statement -/

/-- One drawImage call without rotation: the image handle and the eight
numeric arguments. -/
structure DrawCall where
  image : Image
  x : ℚ
  y : ℚ
  width : ℚ
  height : ℚ
  regionX : ℚ
  regionY : ℚ
  regionWidth : ℚ
  regionHeight : ℚ
deriving DecidableEq

/-- Running one DrawCall (rotation arguments zero). -/
def applyCall (cf sf : ℚ → ℚ) (s : RState) (c : DrawCall) : RState :=
  (drawImage cf sf s c.image c.x c.y c.width c.height
    c.regionX c.regionY c.regionWidth c.regionHeight 0 0 0).1

/-- Running a sequence of DrawCalls in order. -/
def runCalls (cf sf : ℚ → ℚ) (s : RState) (calls : List DrawCall) : RState :=
  calls.foldl (applyCall cf sf) s

/-- Quad number q of the stream buffer holds exactly the direct arithmetic of
the given call: corner positions (x,y), (x+w,y), (x,y+h), (x+w,y+h) in the
fixed winding order, the draw color at all four vertices, and the region
divided componentwise by the image dimensions (36 floats per quad; the
texture-unit slots 8, 17, 26, 35 are not constrained here). -/
def quadMatches (s : RState) (q : ℕ) (col : Color) (c : DrawCall) : Prop :=
  let off := q * 36
  streamGet s (off + 0) = c.x ∧
  streamGet s (off + 1) = c.y ∧
  streamGet s (off + 2) = col.r ∧
  streamGet s (off + 3) = col.g ∧
  streamGet s (off + 4) = col.b ∧
  streamGet s (off + 5) = col.a ∧
  streamGet s (off + 6) = c.regionX / c.image.naturalWidth ∧
  streamGet s (off + 7) = c.regionY / c.image.naturalHeight ∧
  streamGet s (off + 9) = c.x + c.width ∧
  streamGet s (off + 10) = c.y ∧
  streamGet s (off + 11) = col.r ∧
  streamGet s (off + 12) = col.g ∧
  streamGet s (off + 13) = col.b ∧
  streamGet s (off + 14) = col.a ∧
  streamGet s (off + 15) = (c.regionX + c.regionWidth) / c.image.naturalWidth ∧
  streamGet s (off + 16) = c.regionY / c.image.naturalHeight ∧
  streamGet s (off + 18) = c.x ∧
  streamGet s (off + 19) = c.y + c.height ∧
  streamGet s (off + 20) = col.r ∧
  streamGet s (off + 21) = col.g ∧
  streamGet s (off + 22) = col.b ∧
  streamGet s (off + 23) = col.a ∧
  streamGet s (off + 24) = c.regionX / c.image.naturalWidth ∧
  streamGet s (off + 25) = (c.regionY + c.regionHeight) / c.image.naturalHeight ∧
  streamGet s (off + 27) = c.x + c.width ∧
  streamGet s (off + 28) = c.y + c.height ∧
  streamGet s (off + 29) = col.r ∧
  streamGet s (off + 30) = col.g ∧
  streamGet s (off + 31) = col.b ∧
  streamGet s (off + 32) = col.a ∧
  streamGet s (off + 33) = (c.regionX + c.regionWidth) / c.image.naturalWidth ∧
  streamGet s (off + 34) = (c.regionY + c.regionHeight) / c.image.naturalHeight


/-! ## Texture cache lemmas -/

/-- The texture cache stores the units 0, 1, ..., nextUnit - 1 in first-seen
order. -/
def CacheInv (s : RState) : Prop :=
  s.cache.map Prod.snd = List.range s.nextUnit

/-! ## Rotation algebra -/

/-- The rotation described by the specification: translate the pivot
(px, py) to the origin, apply the standard counter-clockwise rotation with
cosine cv and sine sv, translate back. -/
def rotateAround (cv sv px py : ℚ) (p : ℚ × ℚ) : ℚ × ℚ :=
  (px + (cv * (p.1 - px) - sv * (p.2 - py)),
   py + (sv * (p.1 - px) + cv * (p.2 - py)))


/-! ## Concrete states and inputs used by counterexamples and witnesses -/

/-- A 100 x 100 image handle. -/
def cexImage : Image := ⟨0, 100, 100⟩

/-- Small image handles with ids 5 and 7. -/
def cexImage5 : Image := ⟨5, 10, 10⟩

def cexImage7 : Image := ⟨7, 10, 10⟩

/-- The constructor state with draw color (1, 0, 0, 0.5). -/
def cexRedBig : RState := { initialState with color := ⟨1, 0, 0, 1/2⟩ }

/-- The constructor state with a fully transparent draw color. -/
def cexTransparentState : RState := { initialState with color := ⟨1, 0, 0, 0⟩ }

/-- A single drawImage call: 100 x 100 image drawn at (0,0) size 100 x 100
with source region (25, 25, 50, 50). -/
def cexCalls : List DrawCall := [⟨cexImage, 0, 0, 100, 100, 25, 25, 50, 50⟩]

/-- A renderer state with the batch filled to the per-flush cap. -/
def cexCapState : RState :=
  ⟨MAX_LENGTH, 16384, MAX_LENGTH * 36, Array.mkArray (16384 * 36) 0, 0, [], ⟨1, 1, 1, 1⟩⟩

/-- A renderer state with one cached image (id 5 on unit 0). -/
def cexCacheState : RState :=
  ⟨0, 256, 0, Array.mkArray (256 * 36) 0, 1, [(5, 0)], ⟨1, 1, 1, 1⟩⟩

/-- A renderer state whose next texture unit (30) already exceeds the
24-unit sampler budget. -/
def cexOverState : RState :=
  ⟨0, 256, 0, Array.mkArray (256 * 36) 0, 30, [], ⟨1, 1, 1, 1⟩⟩

/-- A renderer state with one pending quad. -/
def cexPendingState : RState :=
  ⟨1, 256, 36, Array.mkArray (256 * 36) 0, 0, [], ⟨1, 1, 1, 1⟩⟩


/-! ## Array helper lemmas -/

theorem getD_eq_getElem (a : Array ℚ) (i : ℕ) (d : ℚ) (h : i < a.size) :
    a.getD i d = a[i] := by
  simp [Array.getD, h]

theorem size_setD (a : Array ℚ) (i : ℕ) (v : ℚ) : (a.setD i v).size = a.size := by
  simp

theorem getD_setD_eq (a : Array ℚ) (i : ℕ) (v d : ℚ) :
    (a.setD i v).getD i d = if i < a.size then v else d := by
  by_cases h : i < a.size
  · simp [Array.getD, h]
  · simp [Array.setD, h, Array.getD]

theorem getD_setD_ne (a : Array ℚ) {i j : ℕ} (v d : ℚ) (h : j ≠ i) :
    (a.setD i v).getD j d = a.getD j d := by
  by_cases hi : i < a.size
  · by_cases hj : j < a.size
    · simp only [Array.getD, size_setD, hj, dif_pos, Array.get_eq_getElem]
      simp only [Array.setD, hi, dif_pos]
      exact Array.getElem_set_ne a ⟨i, hi⟩ v (by simpa using hj) (by simpa using Ne.symm h)
    · simp [Array.getD, hj]
  · simp [Array.setD, hi]

theorem taSet_size (dst src : Array ℚ) : (taSet dst src).size = dst.size := by
  simp [taSet]

theorem taSet_getD_left (dst src : Array ℚ) (i : ℕ) (hd : i < dst.size) (hs : i < src.size) :
    (taSet dst src).getD i 0 = src.getD i 0 := by
  rw [getD_eq_getElem _ _ _ (by simpa [taSet_size] using hd),
      getD_eq_getElem _ _ _ hs]
  simp [taSet, hs]

theorem size_mkArray_rat (n : ℕ) : (Array.mkArray n (0 : ℚ)).size = n := by
  simp

/-- The number of floats one quad occupies in the stream buffer. -/
theorem QUAD_FLOATS : ELEMENT_SIZE * ELEMENTS_PER_QUAD = 36 := rfl

theorem writeQuadStream_size (st : Array ℚ) (off : ℕ)
    (v0x v0y v1x v1y v2x v2y v3x v3y r g b a r0 r1 r2 r3 u : ℚ) :
    (writeQuadStream st off v0x v0y v1x v1y v2x v2y v3x v3y r g b a r0 r1 r2 r3 u).size = st.size := by
  simp [writeQuadStream]

theorem writeQuadStream_read (st : Array ℚ) (off : ℕ)
    (v0x v0y v1x v1y v2x v2y v3x v3y r g b a r0 r1 r2 r3 u : ℚ)
    (hb : off + 36 ≤ st.size) :
    ∀ j, j < 36 →
      (writeQuadStream st off v0x v0y v1x v1y v2x v2y v3x v3y r g b a r0 r1 r2 r3 u).getD (off + j) 0 =
        quadValAt j v0x v0y v1x v1y v2x v2y v3x v3y r g b a r0 r1 r2 r3 u := by
  intro j hj
  interval_cases j <;>
  · simp only [quadValAt, Nat.reduceEqDiff, reduceIte, if_true, if_false,
      writeQuadStream, ELEMENT_SIZE, VERTEX_SIZE, COLOR_SIZE, REGION_SIZE, TEXTURE_SIZE,
      VERTEX_ELEMENT, COLOR_ELEMENT, REGION_ELEMENT, TEXTURE_ELEMENT,
      Nat.add_assoc, Nat.reduceAdd, Nat.add_zero]
    simp only [getD_setD_ne, getD_setD_eq, size_setD, add_right_inj,
      self_eq_add_right, add_right_eq_self, ne_eq, Nat.reduceEqDiff,
      not_false_eq_true]
    rw [if_pos (by omega)]

theorem writeQuadStream_outside (st : Array ℚ) (off : ℕ)
    (v0x v0y v1x v1y v2x v2y v3x v3y r g b a r0 r1 r2 r3 u : ℚ)
    (i : ℕ) (hi : i < off ∨ off + 36 ≤ i) :
    (writeQuadStream st off v0x v0y v1x v1y v2x v2y v3x v3y r g b a r0 r1 r2 r3 u).getD i 0 =
      st.getD i 0 := by
  simp only [writeQuadStream, ELEMENT_SIZE, VERTEX_SIZE, COLOR_SIZE, REGION_SIZE, TEXTURE_SIZE,
    VERTEX_ELEMENT, COLOR_ELEMENT, REGION_ELEMENT, TEXTURE_ELEMENT,
    Nat.add_assoc, Nat.reduceAdd, Nat.add_zero]
  repeat rw [getD_setD_ne]
  all_goals omega


/-! ## Basic lemmas about the renderer operations -/

theorem uploadImage_fields (s : RState) (img : Image) :
    ((uploadImage s img).2.1).length = s.length ∧
    ((uploadImage s img).2.1).sbSize = s.sbSize ∧
    ((uploadImage s img).2.1).sbOffset = s.sbOffset ∧
    ((uploadImage s img).2.1).stream = s.stream ∧
    ((uploadImage s img).2.1).color = s.color := by
  unfold uploadImage
  split <;> simp

theorem flush_zero (s : RState) (h : s.length = 0) : flush s = (s, []) := by
  simp [flush, h]

theorem flush_pos (s : RState) (h : 0 < s.length) :
    flush s =
      ({ s with sbOffset := 0, length := 0 },
       [GLEvent.bufferSubData
          ((s.stream.extract 0 (s.length * ELEMENT_SIZE * ELEMENTS_PER_QUAD)).toList),
        GLEvent.drawElements (s.length * INDICES_PER_QUAD)]) := by
  simp [flush, h]

theorem resizeSB_fields (s : RState) :
    (resizeSB s).length = s.length ∧
    (resizeSB s).sbOffset = s.sbOffset ∧
    (resizeSB s).cache = s.cache ∧
    (resizeSB s).nextUnit = s.nextUnit ∧
    (resizeSB s).color = s.color ∧
    (resizeSB s).sbSize = s.sbSize * 2 := by
  refine ⟨rfl, rfl, rfl, rfl, rfl, ?_⟩
  show s.sbSize <<< 1 = s.sbSize * 2
  omega

theorem resizeSB_stream_size (s : RState) :
    (resizeSB s).stream.size = s.sbSize * 2 * 36 := by
  show (taSet _ _).size = _
  rw [taSet_size, Array.size_mkArray]
  have h9 : ELEMENT_SIZE = 9 := rfl
  have h4 : ELEMENTS_PER_QUAD = 4 := rfl
  rw [h9, h4]
  omega

theorem resizeSB_preserves (s : RState) (hsize : s.stream.size = s.sbSize * 36)
    (i : ℕ) (hi : i < s.stream.size) :
    streamGet (resizeSB s) i = streamGet s i := by
  unfold streamGet resizeSB
  refine taSet_getD_left _ _ i ?_ hi
  rw [Array.size_mkArray]
  have h9 : ELEMENT_SIZE = 9 := rfl
  have h4 : ELEMENTS_PER_QUAD = 4 := rfl
  rw [h9, h4]
  omega

/-! ## The core write step of drawImage -/

theorem drawImageCore_scalars (cf sf : ℚ → ℚ) (s : RState) (image : Image)
    (x y width height rx ry rw rh ang ox oy : ℚ) :
    ((drawImageCore cf sf s image x y width height rx ry rw rh ang ox oy).1.length = s.length + 1) ∧
    ((drawImageCore cf sf s image x y width height rx ry rw rh ang ox oy).1.sbOffset = s.sbOffset + 36) ∧
    ((drawImageCore cf sf s image x y width height rx ry rw rh ang ox oy).1.sbSize = s.sbSize) ∧
    ((drawImageCore cf sf s image x y width height rx ry rw rh ang ox oy).1.color = s.color) ∧
    ((drawImageCore cf sf s image x y width height rx ry rw rh ang ox oy).1.nextUnit =
       (uploadImage s image).2.1.nextUnit) ∧
    ((drawImageCore cf sf s image x y width height rx ry rw rh ang ox oy).1.cache =
       (uploadImage s image).2.1.cache) ∧
    ((drawImageCore cf sf s image x y width height rx ry rw rh ang ox oy).2 =
       (uploadImage s image).2.2) := by
  obtain ⟨hl, hs, ho, hst, hc⟩ := uploadImage_fields s image
  refine ⟨?_, ?_, ?_, ?_, ?_, ?_, ?_⟩ <;>
    simp [drawImageCore, hl, hs, ho, hst, hc, QUAD_FLOATS]

theorem drawImageCore_stream_size (cf sf : ℚ → ℚ) (s : RState) (image : Image)
    (x y width height rx ry rw rh ang ox oy : ℚ) :
    (drawImageCore cf sf s image x y width height rx ry rw rh ang ox oy).1.stream.size =
      s.stream.size := by
  obtain ⟨hl, hs, ho, hst, hc⟩ := uploadImage_fields s image
  simp only [drawImageCore]
  rw [writeQuadStream_size, hst]

theorem drawImageCore_read (cf sf : ℚ → ℚ) (s : RState) (image : Image)
    (x y width height rx ry rw rh ang ox oy : ℚ)
    (hb : s.sbOffset + 36 ≤ s.stream.size) :
    ∀ j, j < 36 →
      streamGet (drawImageCore cf sf s image x y width height rx ry rw rh ang ox oy).1
          (s.sbOffset + j) =
        quadValAt j
          (quadCorners cf sf x y width height ang ox oy).1.1
          (quadCorners cf sf x y width height ang ox oy).1.2
          (quadCorners cf sf x y width height ang ox oy).2.1.1
          (quadCorners cf sf x y width height ang ox oy).2.1.2
          (quadCorners cf sf x y width height ang ox oy).2.2.1.1
          (quadCorners cf sf x y width height ang ox oy).2.2.1.2
          (quadCorners cf sf x y width height ang ox oy).2.2.2.1
          (quadCorners cf sf x y width height ang ox oy).2.2.2.2
          s.color.r s.color.g s.color.b s.color.a
          (rx / image.naturalWidth) (ry / image.naturalHeight)
          ((rx + rw) / image.naturalWidth) ((ry + rh) / image.naturalHeight)
          ((uploadImage s image).1 : ℚ) := by
  intro j hj
  obtain ⟨hl, hs, ho, hst, hc⟩ := uploadImage_fields s image
  have hstream :
      (drawImageCore cf sf s image x y width height rx ry rw rh ang ox oy).1.stream =
        writeQuadStream s.stream s.sbOffset
          (quadCorners cf sf x y width height ang ox oy).1.1
          (quadCorners cf sf x y width height ang ox oy).1.2
          (quadCorners cf sf x y width height ang ox oy).2.1.1
          (quadCorners cf sf x y width height ang ox oy).2.1.2
          (quadCorners cf sf x y width height ang ox oy).2.2.1.1
          (quadCorners cf sf x y width height ang ox oy).2.2.1.2
          (quadCorners cf sf x y width height ang ox oy).2.2.2.1
          (quadCorners cf sf x y width height ang ox oy).2.2.2.2
          s.color.r s.color.g s.color.b s.color.a
          (rx / image.naturalWidth) (ry / image.naturalHeight)
          ((rx + rw) / image.naturalWidth) ((ry + rh) / image.naturalHeight)
          ((uploadImage s image).1 : ℚ) := by
    simp only [drawImageCore]
    rw [hst]
  unfold streamGet
  rw [hstream]
  exact writeQuadStream_read s.stream s.sbOffset
          (quadCorners cf sf x y width height ang ox oy).1.1
          (quadCorners cf sf x y width height ang ox oy).1.2
          (quadCorners cf sf x y width height ang ox oy).2.1.1
          (quadCorners cf sf x y width height ang ox oy).2.1.2
          (quadCorners cf sf x y width height ang ox oy).2.2.1.1
          (quadCorners cf sf x y width height ang ox oy).2.2.1.2
          (quadCorners cf sf x y width height ang ox oy).2.2.2.1
          (quadCorners cf sf x y width height ang ox oy).2.2.2.2
    s.color.r s.color.g s.color.b s.color.a
    (rx / image.naturalWidth) (ry / image.naturalHeight)
    ((rx + rw) / image.naturalWidth) ((ry + rh) / image.naturalHeight)
    ((uploadImage s image).1 : ℚ) hb j hj

theorem drawImageCore_outside (cf sf : ℚ → ℚ) (s : RState) (image : Image)
    (x y width height rx ry rw rh ang ox oy : ℚ)
    (i : ℕ) (hi : i < s.sbOffset ∨ s.sbOffset + 36 ≤ i) :
    streamGet (drawImageCore cf sf s image x y width height rx ry rw rh ang ox oy).1 i =
      streamGet s i := by
  obtain ⟨hl, hs, ho, hst, hc⟩ := uploadImage_fields s image
  have hstream :
      (drawImageCore cf sf s image x y width height rx ry rw rh ang ox oy).1.stream =
        writeQuadStream s.stream s.sbOffset
          (quadCorners cf sf x y width height ang ox oy).1.1
          (quadCorners cf sf x y width height ang ox oy).1.2
          (quadCorners cf sf x y width height ang ox oy).2.1.1
          (quadCorners cf sf x y width height ang ox oy).2.1.2
          (quadCorners cf sf x y width height ang ox oy).2.2.1.1
          (quadCorners cf sf x y width height ang ox oy).2.2.1.2
          (quadCorners cf sf x y width height ang ox oy).2.2.2.1
          (quadCorners cf sf x y width height ang ox oy).2.2.2.2
          s.color.r s.color.g s.color.b s.color.a
          (rx / image.naturalWidth) (ry / image.naturalHeight)
          ((rx + rw) / image.naturalWidth) ((ry + rh) / image.naturalHeight)
          ((uploadImage s image).1 : ℚ) := by
    simp only [drawImageCore]
    rw [hst]
  unfold streamGet
  rw [hstream]
  exact writeQuadStream_outside s.stream s.sbOffset
          (quadCorners cf sf x y width height ang ox oy).1.1
          (quadCorners cf sf x y width height ang ox oy).1.2
          (quadCorners cf sf x y width height ang ox oy).2.1.1
          (quadCorners cf sf x y width height ang ox oy).2.1.2
          (quadCorners cf sf x y width height ang ox oy).2.2.1.1
          (quadCorners cf sf x y width height ang ox oy).2.2.1.2
          (quadCorners cf sf x y width height ang ox oy).2.2.2.1
          (quadCorners cf sf x y width height ang ox oy).2.2.2.2
    s.color.r s.color.g s.color.b s.color.a
    (rx / image.naturalWidth) (ry / image.naturalHeight)
    ((rx + rw) / image.naturalWidth) ((ry + rh) / image.naturalHeight)
    ((uploadImage s image).1 : ℚ) i hi

/-- Under a visible draw color and below the per-flush cap, drawImage is the
core write step applied to the (possibly grown) state. -/
theorem drawImage_eq_core (cf sf : ℚ → ℚ) (s : RState) (image : Image)
    (x y width height rx ry rw rh ang ox oy : ℚ)
    (ha : 1 / 256 ≤ s.color.a) (hlen : s.length < MAX_LENGTH) :
    drawImage cf sf s image x y width height rx ry rw rh ang ox oy =
      drawImageCore cf sf (if s.sbSize ≤ s.length then resizeSB s else s) image
        x y width height rx ry rw rh ang ox oy := by
  unfold drawImage
  rw [if_neg (not_lt.mpr ha), if_neg (by omega)]
  simp

/-- With a visible draw color and the batch at the per-flush cap, drawImage
flushes first and then performs the core write on the flushed state. -/
theorem drawImage_at_cap (cf sf : ℚ → ℚ) (s : RState) (image : Image)
    (x y width height rx ry rw rh ang ox oy : ℚ)
    (ha : 1 / 256 ≤ s.color.a) (hcap : MAX_LENGTH ≤ s.length) (hsb : 0 < s.sbSize) :
    drawImage cf sf s image x y width height rx ry rw rh ang ox oy =
      ((drawImageCore cf sf (flush s).1 image x y width height rx ry rw rh ang ox oy).1,
       (flush s).2 ++
         (drawImageCore cf sf (flush s).1 image x y width height rx ry rw rh ang ox oy).2) := by
  unfold drawImage
  rw [if_neg (not_lt.mpr ha), if_pos hcap]
  have hpos : 0 < s.length := lt_of_lt_of_le (by norm_num [MAX_LENGTH]) hcap
  have hns : ¬ ((flush s).1.sbSize ≤ (flush s).1.length) := by
    rw [flush_pos s hpos]
    show ¬ (s.sbSize ≤ 0)
    omega
  simp [hns]

/-- The transparent-color short circuit: drawImage with alpha below 1/256 is
the identity and performs no GPU call. -/
theorem drawImage_transparent (cf sf : ℚ → ℚ) (s : RState) (image : Image)
    (x y width height rx ry rw rh ang ox oy : ℚ)
    (ha : s.color.a < 1 / 256) :
    drawImage cf sf s image x y width height rx ry rw rh ang ox oy = (s, []) := by
  unfold drawImage
  rw [if_pos ha]

theorem initialState_Inv : Inv initialState := by
  refine ⟨rfl, ?_, ?_, ?_, ⟨0, by norm_num [initialState]⟩⟩
  · show (Array.mkArray (256 * (ELEMENT_SIZE * ELEMENTS_PER_QUAD)) (0 : ℚ)).size = 256 * 36
    rw [Array.size_mkArray, QUAD_FLOATS]
  · exact Nat.zero_le _
  · exact Nat.zero_le _

theorem sbSize_pos (s : RState) (h : Inv s) : 0 < s.sbSize := by
  obtain ⟨k, hk⟩ := h.hpow
  have : 0 < 256 * 2 ^ k := by positivity
  omega

theorem flush_Inv (s : RState) (h : Inv s) : Inv (flush s).1 := by
  by_cases hl : 0 < s.length
  · rw [flush_pos s hl]
    exact ⟨by norm_num, h.hsize, Nat.zero_le _, Nat.zero_le _, h.hpow⟩
  · rw [flush_zero s (by omega)]
    exact h

theorem reset_Inv (s : RState) (h : Inv s) : Inv (reset s).1 := by
  refine ⟨?_, ?_, ?_, ?_, ?_⟩ <;> simp [reset]
  · exact h.hsize
  · exact h.hpow

theorem resizeSB_Inv (s : RState) (h : Inv s) : Inv (resizeSB s) := by
  obtain ⟨hL, hO, hC, hN, hCol, hS⟩ := resizeSB_fields s
  refine ⟨?_, ?_, ?_, ?_, ?_⟩
  · rw [hO, hL]
    exact h.hoff
  · rw [resizeSB_stream_size, hS]
  · rw [hL, hS]
    have := h.hlen
    omega
  · rw [hL]
    exact h.hcap
  · obtain ⟨k, hk⟩ := h.hpow
    refine ⟨k + 1, ?_⟩
    rw [hS, hk]
    ring

theorem drawImageCore_Inv (cf sf : ℚ → ℚ) (t : RState) (image : Image)
    (x y width height rx ry rw rh ang ox oy : ℚ)
    (h : Inv t) (hroom : t.length < t.sbSize) (hcap2 : t.length < MAX_LENGTH) :
    Inv (drawImageCore cf sf t image x y width height rx ry rw rh ang ox oy).1 := by
  obtain ⟨hL, hO, hS, hCol, hN, hC, hE⟩ :=
    drawImageCore_scalars cf sf t image x y width height rx ry rw rh ang ox oy
  refine ⟨?_, ?_, ?_, ?_, ?_⟩
  · rw [hL, hO, h.hoff]
    ring
  · rw [drawImageCore_stream_size, hS]
    exact h.hsize
  · rw [hL, hS]
    omega
  · rw [hL]
    omega
  · rw [hS]
    exact h.hpow

theorem drawImage_Inv (cf sf : ℚ → ℚ) (s : RState) (image : Image)
    (x y width height rx ry rw rh ang ox oy : ℚ)
    (h : Inv s) :
    Inv (drawImage cf sf s image x y width height rx ry rw rh ang ox oy).1 := by
  by_cases ha : s.color.a < 1 / 256
  · rw [drawImage_transparent cf sf s image x y width height rx ry rw rh ang ox oy ha]
    exact h
  · have ha' : 1 / 256 ≤ s.color.a := not_lt.mp ha
    by_cases hcap : MAX_LENGTH ≤ s.length
    · rw [drawImage_at_cap cf sf s image x y width height rx ry rw rh ang ox oy ha' hcap
        (sbSize_pos s h)]
      have hf := flush_Inv s h
      have hflen : (flush s).1.length = 0 := by
        have hpos : 0 < s.length := by
          have : (0:ℕ) < MAX_LENGTH := by norm_num [MAX_LENGTH]
          omega
        rw [flush_pos s hpos]
      exact drawImageCore_Inv cf sf (flush s).1 image x y width height rx ry rw rh ang ox oy
        hf (by rw [hflen]; exact sbSize_pos _ hf) (by rw [hflen]; norm_num [MAX_LENGTH])
    · rw [drawImage_eq_core cf sf s image x y width height rx ry rw rh ang ox oy ha' (by omega)]
      by_cases hr : s.sbSize ≤ s.length
      · rw [if_pos hr]
        have hR := resizeSB_Inv s h
        obtain ⟨hL, hO, hC, hN, hCol, hS⟩ := resizeSB_fields s
        refine drawImageCore_Inv cf sf (resizeSB s) image x y width height rx ry rw rh ang ox oy
          hR ?_ ?_
        · rw [hL, hS]
          have := sbSize_pos s h
          have := h.hlen
          omega
        · rw [hL]
          omega
      · rw [if_neg hr]
        exact drawImageCore_Inv cf sf s image x y width height rx ry rw rh ang ox oy h
          (by omega) (by omega)

theorem reachable_Inv (cf sf : ℚ → ℚ) (s : RState) (h : Reachable cf sf s) : Inv s := by
  induction h with
  | init => exact initialState_Inv
  | draw t image x y width height rx ry rw rh ang ox oy _ ih =>
      exact drawImage_Inv cf sf t image x y width height rx ry rw rh ang ox oy ih
  | flushStep t _ ih => exact flush_Inv t ih
  | resetStep t _ ih => exact reset_Inv t ih

theorem quadMatches_mono (s1 s2 : RState) (B q : ℕ) (col : Color) (c : DrawCall)
    (hp : ∀ i, i < B → streamGet s2 i = streamGet s1 i)
    (hB : q * 36 + 36 ≤ B)
    (h : quadMatches s1 q col c) : quadMatches s2 q col c := by
  simp only [quadMatches] at h ⊢
  obtain ⟨h0, h1, h2, h3, h4, h5, h6, h7, h8, h9, h10, h11, h12, h13, h14, h15, h16, h17, h18, h19, h20, h21, h22, h23, h24, h25, h26, h27, h28, h29, h30, h31⟩ := h
  refine ⟨?_, ?_, ?_, ?_, ?_, ?_, ?_, ?_, ?_, ?_, ?_, ?_, ?_, ?_, ?_, ?_, ?_, ?_, ?_, ?_, ?_, ?_, ?_, ?_, ?_, ?_, ?_, ?_, ?_, ?_, ?_, ?_⟩
  · rw [hp (q * 36 + 0) (by omega)]
    exact h0
  · rw [hp (q * 36 + 1) (by omega)]
    exact h1
  · rw [hp (q * 36 + 2) (by omega)]
    exact h2
  · rw [hp (q * 36 + 3) (by omega)]
    exact h3
  · rw [hp (q * 36 + 4) (by omega)]
    exact h4
  · rw [hp (q * 36 + 5) (by omega)]
    exact h5
  · rw [hp (q * 36 + 6) (by omega)]
    exact h6
  · rw [hp (q * 36 + 7) (by omega)]
    exact h7
  · rw [hp (q * 36 + 9) (by omega)]
    exact h8
  · rw [hp (q * 36 + 10) (by omega)]
    exact h9
  · rw [hp (q * 36 + 11) (by omega)]
    exact h10
  · rw [hp (q * 36 + 12) (by omega)]
    exact h11
  · rw [hp (q * 36 + 13) (by omega)]
    exact h12
  · rw [hp (q * 36 + 14) (by omega)]
    exact h13
  · rw [hp (q * 36 + 15) (by omega)]
    exact h14
  · rw [hp (q * 36 + 16) (by omega)]
    exact h15
  · rw [hp (q * 36 + 18) (by omega)]
    exact h16
  · rw [hp (q * 36 + 19) (by omega)]
    exact h17
  · rw [hp (q * 36 + 20) (by omega)]
    exact h18
  · rw [hp (q * 36 + 21) (by omega)]
    exact h19
  · rw [hp (q * 36 + 22) (by omega)]
    exact h20
  · rw [hp (q * 36 + 23) (by omega)]
    exact h21
  · rw [hp (q * 36 + 24) (by omega)]
    exact h22
  · rw [hp (q * 36 + 25) (by omega)]
    exact h23
  · rw [hp (q * 36 + 27) (by omega)]
    exact h24
  · rw [hp (q * 36 + 28) (by omega)]
    exact h25
  · rw [hp (q * 36 + 29) (by omega)]
    exact h26
  · rw [hp (q * 36 + 30) (by omega)]
    exact h27
  · rw [hp (q * 36 + 31) (by omega)]
    exact h28
  · rw [hp (q * 36 + 32) (by omega)]
    exact h29
  · rw [hp (q * 36 + 33) (by omega)]
    exact h30
  · rw [hp (q * 36 + 34) (by omega)]
    exact h31

theorem quadCorners_zero (cf sf : ℚ → ℚ) (x y width height ox oy : ℚ) :
    quadCorners cf sf x y width height 0 ox oy =
      ((x, y), (x + width, y), (x, y + height), (x + width, y + height)) := by
  simp [quadCorners]

theorem drawImageCore_step (cf sf : ℚ → ℚ) (t : RState) (c : DrawCall)
    (hInv : Inv t) (hroom : t.length < t.sbSize) (hcap : t.length < MAX_LENGTH) :
    Inv (drawImageCore cf sf t c.image c.x c.y c.width c.height
          c.regionX c.regionY c.regionWidth c.regionHeight 0 0 0).1 ∧
    (drawImageCore cf sf t c.image c.x c.y c.width c.height
          c.regionX c.regionY c.regionWidth c.regionHeight 0 0 0).1.length = t.length + 1 ∧
    (drawImageCore cf sf t c.image c.x c.y c.width c.height
          c.regionX c.regionY c.regionWidth c.regionHeight 0 0 0).1.sbOffset = t.sbOffset + 36 ∧
    (drawImageCore cf sf t c.image c.x c.y c.width c.height
          c.regionX c.regionY c.regionWidth c.regionHeight 0 0 0).1.color = t.color ∧
    (∀ i, i < t.sbOffset →
        streamGet (drawImageCore cf sf t c.image c.x c.y c.width c.height
          c.regionX c.regionY c.regionWidth c.regionHeight 0 0 0).1 i = streamGet t i) ∧
    quadMatches (drawImageCore cf sf t c.image c.x c.y c.width c.height
          c.regionX c.regionY c.regionWidth c.regionHeight 0 0 0).1 t.length t.color c := by
  obtain ⟨hL, hO, hS, hCol, hN, hC, hE⟩ :=
    drawImageCore_scalars cf sf t c.image c.x c.y c.width c.height
      c.regionX c.regionY c.regionWidth c.regionHeight 0 0 0
  have hb : t.sbOffset + 36 ≤ t.stream.size := by
    have h1 := hInv.hoff
    have h2 := hInv.hsize
    omega
  have hread := drawImageCore_read cf sf t c.image c.x c.y c.width c.height
    c.regionX c.regionY c.regionWidth c.regionHeight 0 0 0 hb
  refine ⟨drawImageCore_Inv cf sf t c.image c.x c.y c.width c.height
      c.regionX c.regionY c.regionWidth c.regionHeight 0 0 0 hInv hroom hcap,
    hL, hO, hCol, ?_, ?_⟩
  · intro i hi
    exact drawImageCore_outside cf sf t c.image c.x c.y c.width c.height
      c.regionX c.regionY c.regionWidth c.regionHeight 0 0 0 i (Or.inl hi)
  · simp only [quadMatches]
    rw [← hInv.hoff]
    refine ⟨?_, ?_, ?_, ?_, ?_, ?_, ?_, ?_, ?_, ?_, ?_, ?_, ?_, ?_, ?_, ?_, ?_, ?_, ?_, ?_, ?_, ?_, ?_, ?_, ?_, ?_, ?_, ?_, ?_, ?_, ?_, ?_⟩
    · simpa [quadValAt, quadCorners_zero] using hread 0 (by norm_num)
    · simpa [quadValAt, quadCorners_zero] using hread 1 (by norm_num)
    · simpa [quadValAt, quadCorners_zero] using hread 2 (by norm_num)
    · simpa [quadValAt, quadCorners_zero] using hread 3 (by norm_num)
    · simpa [quadValAt, quadCorners_zero] using hread 4 (by norm_num)
    · simpa [quadValAt, quadCorners_zero] using hread 5 (by norm_num)
    · simpa [quadValAt, quadCorners_zero] using hread 6 (by norm_num)
    · simpa [quadValAt, quadCorners_zero] using hread 7 (by norm_num)
    · simpa [quadValAt, quadCorners_zero] using hread 9 (by norm_num)
    · simpa [quadValAt, quadCorners_zero] using hread 10 (by norm_num)
    · simpa [quadValAt, quadCorners_zero] using hread 11 (by norm_num)
    · simpa [quadValAt, quadCorners_zero] using hread 12 (by norm_num)
    · simpa [quadValAt, quadCorners_zero] using hread 13 (by norm_num)
    · simpa [quadValAt, quadCorners_zero] using hread 14 (by norm_num)
    · simpa [quadValAt, quadCorners_zero] using hread 15 (by norm_num)
    · simpa [quadValAt, quadCorners_zero] using hread 16 (by norm_num)
    · simpa [quadValAt, quadCorners_zero] using hread 18 (by norm_num)
    · simpa [quadValAt, quadCorners_zero] using hread 19 (by norm_num)
    · simpa [quadValAt, quadCorners_zero] using hread 20 (by norm_num)
    · simpa [quadValAt, quadCorners_zero] using hread 21 (by norm_num)
    · simpa [quadValAt, quadCorners_zero] using hread 22 (by norm_num)
    · simpa [quadValAt, quadCorners_zero] using hread 23 (by norm_num)
    · simpa [quadValAt, quadCorners_zero] using hread 24 (by norm_num)
    · simpa [quadValAt, quadCorners_zero] using hread 25 (by norm_num)
    · simpa [quadValAt, quadCorners_zero] using hread 27 (by norm_num)
    · simpa [quadValAt, quadCorners_zero] using hread 28 (by norm_num)
    · simpa [quadValAt, quadCorners_zero] using hread 29 (by norm_num)
    · simpa [quadValAt, quadCorners_zero] using hread 30 (by norm_num)
    · simpa [quadValAt, quadCorners_zero] using hread 31 (by norm_num)
    · simpa [quadValAt, quadCorners_zero] using hread 32 (by norm_num)
    · simpa [quadValAt, quadCorners_zero] using hread 33 (by norm_num)
    · simpa [quadValAt, quadCorners_zero] using hread 34 (by norm_num)

theorem drawImage_step (cf sf : ℚ → ℚ) (s : RState) (c : DrawCall)
    (hInv : Inv s) (ha : 1 / 256 ≤ s.color.a) (hlen : s.length < MAX_LENGTH) :
    Inv (applyCall cf sf s c) ∧
    (applyCall cf sf s c).length = s.length + 1 ∧
    (applyCall cf sf s c).sbOffset = s.sbOffset + 36 ∧
    (applyCall cf sf s c).color = s.color ∧
    (∀ i, i < s.sbOffset → streamGet (applyCall cf sf s c) i = streamGet s i) ∧
    quadMatches (applyCall cf sf s c) s.length s.color c := by
  unfold applyCall
  rw [drawImage_eq_core cf sf s c.image c.x c.y c.width c.height
    c.regionX c.regionY c.regionWidth c.regionHeight 0 0 0 ha hlen]
  by_cases hr : s.sbSize ≤ s.length
  · rw [if_pos hr]
    obtain ⟨hL, hO, hC, hN, hCol, hS⟩ := resizeSB_fields s
    have hInv2 := resizeSB_Inv s hInv
    have hpos := sbSize_pos s hInv
    have hroom : (resizeSB s).length < (resizeSB s).sbSize := by
      rw [hL, hS]
      have := hInv.hlen
      omega
    obtain ⟨g1, g2, g3, g4, g5, g6⟩ :=
      drawImageCore_step cf sf (resizeSB s) c hInv2 hroom (by rw [hL]; omega)
    rw [hL] at g2 g6
    rw [hO] at g3 g5
    rw [hCol] at g4 g6
    refine ⟨g1, g2, g3, g4, ?_, g6⟩
    intro i hi
    rw [g5 i hi]
    refine resizeSB_preserves s hInv.hsize i ?_
    have h1 := hInv.hoff
    have h2 := hInv.hsize
    have h3 := hInv.hlen
    omega
  · rw [if_neg hr]
    exact drawImageCore_step cf sf s c hInv (by omega) hlen

theorem runCalls_spec (cf sf : ℚ → ℚ) (calls : List DrawCall) (s : RState)
    (hInv : Inv s) (ha : 1 / 256 ≤ s.color.a)
    (hcap : s.length + calls.length ≤ MAX_LENGTH) :
    Inv (runCalls cf sf s calls) ∧
    (runCalls cf sf s calls).length = s.length + calls.length ∧
    (runCalls cf sf s calls).color = s.color ∧
    (∀ i, i < s.sbOffset → streamGet (runCalls cf sf s calls) i = streamGet s i) ∧
    (∀ k, (hk : k < calls.length) →
        quadMatches (runCalls cf sf s calls) (s.length + k) s.color (calls[k])) := by
  induction calls generalizing s with
  | nil =>
      refine ⟨hInv, by simp [runCalls], rfl, fun i _ => rfl, ?_⟩
      intro k hk
      simp at hk
  | cons c cs ih =>
      simp only [List.length_cons] at hcap
      obtain ⟨h1Inv, h1len, h1off, h1col, h1pres, h1quad⟩ :=
        drawImage_step cf sf s c hInv ha (by omega)
      obtain ⟨hInv2, hlen2, hcol2, hpres2, hquad2⟩ :=
        ih (applyCall cf sf s c) h1Inv (by rw [h1col]; exact ha) (by rw [h1len]; omega)
      have hrc : runCalls cf sf s (c :: cs) = runCalls cf sf (applyCall cf sf s c) cs := rfl
      refine ⟨?_, ?_, ?_, ?_, ?_⟩
      · rw [hrc]
        exact hInv2
      · rw [hrc, hlen2, h1len]
        simp only [List.length_cons]
        omega
      · rw [hrc, hcol2, h1col]
      · intro i hi
        rw [hrc, hpres2 i (by omega)]
        exact h1pres i hi
      · intro k hk
        rw [hrc]
        cases k with
        | zero =>
            simp only [List.getElem_cons_zero, Nat.add_zero]
            refine quadMatches_mono (applyCall cf sf s c) (runCalls cf sf (applyCall cf sf s c) cs)
              ((applyCall cf sf s c).sbOffset) s.length s.color c hpres2 ?_ h1quad
            have h1 := hInv.hoff
            omega
        | succ k2 =>
            simp only [List.getElem_cons_succ]
            simp only [List.length_cons] at hk
            have hq := hquad2 k2 (by omega)
            simp only [h1len, h1col] at hq
            have hidx : s.length + (k2 + 1) = s.length + 1 + k2 := by omega
            rw [hidx]
            exact hq

theorem uploadImage_hit (s : RState) (img : Image) (u : ℕ)
    (h : cacheLookup s.cache img.id = some u) :
    uploadImage s img = (u, s, []) := by
  unfold uploadImage
  rw [h]

theorem uploadImage_miss (s : RState) (img : Image)
    (h : cacheLookup s.cache img.id = none) :
    uploadImage s img =
      (s.nextUnit,
       { s with nextUnit := s.nextUnit + 1, cache := s.cache ++ [(img.id, s.nextUnit)] },
       [GLEvent.texImage2D s.nextUnit img.id]) := by
  unfold uploadImage
  rw [h]

theorem cacheLookup_append (cache : List (ℕ × ℕ)) (kv : ℕ × ℕ) (k : ℕ) (u : ℕ)
    (h : cacheLookup cache k = some u) :
    cacheLookup (cache ++ [kv]) k = some u := by
  unfold cacheLookup at h ⊢
  cases hf : cache.find? (fun p => p.1 == k) with
  | none => rw [hf] at h; simp at h
  | some pr =>
      rw [hf] at h
      rw [List.find?_append, hf]
      simpa using h

theorem CacheInv_length (s : RState) (h : CacheInv s) : s.cache.length = s.nextUnit := by
  have := congrArg List.length h
  simpa using this

theorem uploadImage_CacheInv (s : RState) (img : Image) (h : CacheInv s) :
    CacheInv (uploadImage s img).2.1 := by
  cases hf : cacheLookup s.cache img.id with
  | some u => rw [uploadImage_hit s img u hf]; exact h
  | none =>
      rw [uploadImage_miss s img hf]
      unfold CacheInv at h ⊢
      simp only [List.map_append, List.map_cons, List.map_nil, h]
      rw [List.range_succ]

theorem initialState_CacheInv : CacheInv initialState := by
  simp [CacheInv, initialState]

/-! ## Index table lemmas -/

theorem createIB_length : createIB.length = MAX_LENGTH * INDICES_PER_QUAD := by
  simp [createIB]

theorem createIB_get (i : ℕ) (hi : i < MAX_LENGTH * INDICES_PER_QUAD) :
    createIB.getD i 0 =
      [0, 1, 2, 2, 1, 3].getD (i % INDICES_PER_QUAD) 0 + i / INDICES_PER_QUAD * ELEMENTS_PER_QUAD := by
  unfold createIB
  rw [List.getD, List.get?_eq_getElem?, List.getElem?_map, List.getElem?_range hi]
  rfl

theorem createIB_entry_lt (i : ℕ) (hi : i < MAX_LENGTH * INDICES_PER_QUAD) :
    createIB.getD i 0 < 65536 ∧
    i / INDICES_PER_QUAD * ELEMENTS_PER_QUAD ≤ createIB.getD i 0 ∧
    createIB.getD i 0 < i / INDICES_PER_QUAD * ELEMENTS_PER_QUAD + ELEMENTS_PER_QUAD := by
  rw [createIB_get i hi]
  have h6 : INDICES_PER_QUAD = 6 := rfl
  have h4 : ELEMENTS_PER_QUAD = 4 := rfl
  rw [h6, h4]
  rw [show MAX_LENGTH * INDICES_PER_QUAD = 96000 from rfl] at hi
  have hm : i % 6 < 6 := Nat.mod_lt _ (by norm_num)
  have hq : i / 6 < 16000 := by omega
  have hpat : ∀ m : ℕ, m < 6 → [0, 1, 2, 2, 1, 3].getD m 0 ≤ 3 := by decide
  have := hpat (i % 6) hm
  omega

theorem createIB16_eq : createIB16 = createIB := by
  unfold createIB16
  have : ∀ a ∈ createIB, a % 65536 = a := by
    intro a ha
    unfold createIB at ha
    obtain ⟨i, hi, rfl⟩ := List.mem_map.mp ha
    have hi2 : i < MAX_LENGTH * INDICES_PER_QUAD := List.mem_range.mp hi
    have h6 : INDICES_PER_QUAD = 6 := rfl
    have h4 : ELEMENTS_PER_QUAD = 4 := rfl
    rw [h6, h4]
    rw [show MAX_LENGTH * INDICES_PER_QUAD = 96000 from rfl] at hi2
    have hm : i % 6 < 6 := Nat.mod_lt _ (by norm_num)
    have hq : i / 6 < 16000 := by omega
    have hpat : ∀ m : ℕ, m < 6 → [0, 1, 2, 2, 1, 3].getD m 0 ≤ 3 := by decide
    have := hpat (i % 6) hm
    have hlt : [0, 1, 2, 2, 1, 3].getD (i % 6) 0 + i / 6 * 4 < 65536 := by omega
    exact Nat.mod_eq_of_lt hlt
  calc createIB.map (fun a => a % 65536) = createIB.map id := List.map_congr_left this
    _ = createIB := List.map_id createIB

theorem quadCorners_rot (cf sf : ℚ → ℚ) (x y width height ang ox oy : ℚ) (h : ang ≠ 0) :
    quadCorners cf sf x y width height ang ox oy =
      (rotateAround (cf ang) (sf ang) (x + ox) (y + oy) (x, y),
       rotateAround (cf ang) (sf ang) (x + ox) (y + oy) (x + width, y),
       rotateAround (cf ang) (sf ang) (x + ox) (y + oy) (x, y + height),
       rotateAround (cf ang) (sf ang) (x + ox) (y + oy) (x + width, y + height)) := by
  simp only [quadCorners]
  rw [if_pos h]
  unfold mat3identity mat3translate mat3rotate transformMat3 rotateAround
  simp only [Prod.mk.injEq]
  refine ⟨⟨?_, ?_⟩, ⟨?_, ?_⟩, ⟨?_, ?_⟩, ?_, ?_⟩ <;> ring


/-! ## General drawImage characterizations -/

theorem uploadImage_resize_unit (s : RState) (image : Image) :
    (uploadImage (resizeSB s) image).1 = (uploadImage s image).1 := by
  unfold uploadImage
  have hc : (resizeSB s).cache = s.cache := rfl
  have hn : (resizeSB s).nextUnit = s.nextUnit := rfl
  rw [hc]
  cases cacheLookup s.cache image.id <;> simp [hn]

theorem drawImage_slots (cf sf : ℚ → ℚ) (s : RState) (image : Image)
    (x y width height rx ry rw rh ang ox oy : ℚ)
    (hInv : Inv s) (ha : 1 / 256 ≤ s.color.a) (hlen : s.length < MAX_LENGTH) :
    ∀ j, j < 36 →
      streamGet (drawImage cf sf s image x y width height rx ry rw rh ang ox oy).1
          (s.sbOffset + j) =
        quadValAt j
          (quadCorners cf sf x y width height ang ox oy).1.1
          (quadCorners cf sf x y width height ang ox oy).1.2
          (quadCorners cf sf x y width height ang ox oy).2.1.1
          (quadCorners cf sf x y width height ang ox oy).2.1.2
          (quadCorners cf sf x y width height ang ox oy).2.2.1.1
          (quadCorners cf sf x y width height ang ox oy).2.2.1.2
          (quadCorners cf sf x y width height ang ox oy).2.2.2.1
          (quadCorners cf sf x y width height ang ox oy).2.2.2.2
          s.color.r s.color.g s.color.b s.color.a
          (rx / image.naturalWidth) (ry / image.naturalHeight)
          ((rx + rw) / image.naturalWidth) ((ry + rh) / image.naturalHeight)
          ((uploadImage s image).1 : ℚ) := by
  intro j hj
  rw [drawImage_eq_core cf sf s image x y width height rx ry rw rh ang ox oy ha hlen]
  by_cases hr : s.sbSize ≤ s.length
  · rw [if_pos hr]
    obtain ⟨hL, hO, hC, hN, hCol, hS⟩ := resizeSB_fields s
    have hb : (resizeSB s).sbOffset + 36 ≤ (resizeSB s).stream.size := by
      rw [hO, resizeSB_stream_size]
      have h1 := hInv.hoff
      have h2 := hInv.hlen
      have h3 := sbSize_pos s hInv
      omega
    have h := drawImageCore_read cf sf (resizeSB s) image x y width height rx ry rw rh
      ang ox oy hb j hj
    rw [hO, hCol, uploadImage_resize_unit] at h
    exact h
  · rw [if_neg hr]
    have hb : s.sbOffset + 36 ≤ s.stream.size := by
      have h1 := hInv.hoff
      have h2 := hInv.hsize
      omega
    exact drawImageCore_read cf sf s image x y width height rx ry rw rh ang ox oy hb j hj

theorem drawImage_cap_spec (cf sf : ℚ → ℚ) (s : RState) (image : Image)
    (x y width height rx ry rw rh ang ox oy : ℚ)
    (hInv : Inv s) (ha : 1 / 256 ≤ s.color.a) (hc : s.length = MAX_LENGTH) :
    (drawImage cf sf s image x y width height rx ry rw rh ang ox oy).2 =
      GLEvent.bufferSubData
          ((s.stream.extract 0 (s.length * ELEMENT_SIZE * ELEMENTS_PER_QUAD)).toList) ::
        GLEvent.drawElements (s.length * INDICES_PER_QUAD) ::
        (uploadImage (flush s).1 image).2.2 ∧
    (drawImage cf sf s image x y width height rx ry rw rh ang ox oy).1.length = 1 ∧
    (drawImage cf sf s image x y width height rx ry rw rh ang ox oy).1.sbOffset = 36 ∧
    (∀ j, j < 36 →
      streamGet (drawImage cf sf s image x y width height rx ry rw rh ang ox oy).1 j =
        quadValAt j
          (quadCorners cf sf x y width height ang ox oy).1.1
          (quadCorners cf sf x y width height ang ox oy).1.2
          (quadCorners cf sf x y width height ang ox oy).2.1.1
          (quadCorners cf sf x y width height ang ox oy).2.1.2
          (quadCorners cf sf x y width height ang ox oy).2.2.1.1
          (quadCorners cf sf x y width height ang ox oy).2.2.1.2
          (quadCorners cf sf x y width height ang ox oy).2.2.2.1
          (quadCorners cf sf x y width height ang ox oy).2.2.2.2
          s.color.r s.color.g s.color.b s.color.a
          (rx / image.naturalWidth) (ry / image.naturalHeight)
          ((rx + rw) / image.naturalWidth) ((ry + rh) / image.naturalHeight)
          ((uploadImage (flush s).1 image).1 : ℚ)) := by
  have hpos : 0 < s.length := by
    rw [hc]
    norm_num [MAX_LENGTH]
  have hsb := sbSize_pos s hInv
  rw [drawImage_at_cap cf sf s image x y width height rx ry rw rh ang ox oy ha (le_of_eq hc.symm) hsb]
  obtain ⟨hL, hO, hS, hCol, hN, hC, hE⟩ :=
    drawImageCore_scalars cf sf (flush s).1 image x y width height rx ry rw rh ang ox oy
  have hfOff : (flush s).1.sbOffset = 0 := by rw [flush_pos s hpos]
  have hfLen : (flush s).1.length = 0 := by rw [flush_pos s hpos]
  have hfCol : (flush s).1.color = s.color := by rw [flush_pos s hpos]
  have hfStream : (flush s).1.stream = s.stream := by rw [flush_pos s hpos]
  have hfSize : (flush s).1.stream.size = s.stream.size := by rw [hfStream]
  have hb : (flush s).1.sbOffset + 36 ≤ (flush s).1.stream.size := by
    rw [hfOff, hfSize, hInv.hsize]
    have := sbSize_pos s hInv
    omega
  refine ⟨?_, ?_, ?_, ?_⟩
  · show (flush s).2 ++ _ = _
    rw [hE, flush_pos s hpos]
    rfl
  · show (drawImageCore cf sf (flush s).1 image x y width height rx ry rw rh ang ox oy).1.length = 1
    rw [hL, hfLen]
  · show (drawImageCore cf sf (flush s).1 image x y width height rx ry rw rh ang ox oy).1.sbOffset = 36
    rw [hO, hfOff]
  · intro j hj
    have h := drawImageCore_read cf sf (flush s).1 image x y width height rx ry rw rh
      ang ox oy hb j hj
    rw [hfOff, hfCol] at h
    show streamGet (drawImageCore cf sf (flush s).1 image x y width height rx ry rw rh ang ox oy).1 j = _
    have hz : (0 : ℕ) + j = j := by omega
    rw [hz] at h
    exact h

theorem drawImage_preserves_off (cf sf : ℚ → ℚ) (s : RState) (image : Image)
    (x y width height rx ry rw rh ang ox oy : ℚ)
    (h : s.sbOffset = s.length * (ELEMENT_SIZE * ELEMENTS_PER_QUAD)) :
    (drawImage cf sf s image x y width height rx ry rw rh ang ox oy).1.sbOffset =
      (drawImage cf sf s image x y width height rx ry rw rh ang ox oy).1.length *
        (ELEMENT_SIZE * ELEMENTS_PER_QUAD) := by
  have hflush : ∀ t : RState, t.sbOffset = t.length * (ELEMENT_SIZE * ELEMENTS_PER_QUAD) →
      (flush t).1.sbOffset = (flush t).1.length * (ELEMENT_SIZE * ELEMENTS_PER_QUAD) := by
    intro t ht
    by_cases h0 : 0 < t.length
    · rw [flush_pos t h0]
      simp
    · rw [flush_zero t (by omega)]
      exact ht
  have hresize : ∀ t : RState, t.sbOffset = t.length * (ELEMENT_SIZE * ELEMENTS_PER_QUAD) →
      (resizeSB t).sbOffset = (resizeSB t).length * (ELEMENT_SIZE * ELEMENTS_PER_QUAD) := by
    intro t ht
    obtain ⟨hL, hO, hC, hN, hCol, hS⟩ := resizeSB_fields t
    rw [hL, hO]
    exact ht
  have hcore : ∀ t : RState, t.sbOffset = t.length * (ELEMENT_SIZE * ELEMENTS_PER_QUAD) →
      (drawImageCore cf sf t image x y width height rx ry rw rh ang ox oy).1.sbOffset =
        (drawImageCore cf sf t image x y width height rx ry rw rh ang ox oy).1.length *
          (ELEMENT_SIZE * ELEMENTS_PER_QUAD) := by
    intro t ht
    obtain ⟨hL, hO, hS, hCol, hN, hC, hE⟩ :=
      drawImageCore_scalars cf sf t image x y width height rx ry rw rh ang ox oy
    rw [hL, hO, ht, QUAD_FLOATS]
    ring
  unfold drawImage
  by_cases ha : s.color.a < 1 / 256
  · rw [if_pos ha]
    exact h
  · rw [if_neg ha]
    simp only []
    by_cases hcap : MAX_LENGTH ≤ s.length
    · rw [if_pos hcap]
      by_cases hr : (flush s).1.sbSize ≤ (flush s).1.length
      · rw [if_pos hr]
        exact hcore _ (hresize _ (hflush s h))
      · rw [if_neg hr]
        exact hcore _ (hflush s h)
    · rw [if_neg hcap]
      by_cases hr : s.sbSize ≤ s.length
      · rw [if_pos hr]
        exact hcore _ (hresize _ h)
      · rw [if_neg hr]
        exact hcore _ h

theorem drawImage_length_cases (cf sf : ℚ → ℚ) (s : RState) (image : Image)
    (x y width height rx ry rw rh ang ox oy : ℚ) :
    (drawImage cf sf s image x y width height rx ry rw rh ang ox oy).1.length = s.length ∨
    (drawImage cf sf s image x y width height rx ry rw rh ang ox oy).1.length = s.length + 1 ∨
    (MAX_LENGTH ≤ s.length ∧
      (drawImage cf sf s image x y width height rx ry rw rh ang ox oy).1.length = 1 ∧
      GLEvent.drawElements (s.length * INDICES_PER_QUAD) ∈
        (drawImage cf sf s image x y width height rx ry rw rh ang ox oy).2) := by
  have hcoreLen : ∀ t : RState,
      (drawImageCore cf sf t image x y width height rx ry rw rh ang ox oy).1.length =
        t.length + 1 := by
    intro t
    exact (drawImageCore_scalars cf sf t image x y width height rx ry rw rh ang ox oy).1
  by_cases ha : s.color.a < 1 / 256
  · left
    rw [drawImage_transparent cf sf s image x y width height rx ry rw rh ang ox oy ha]
  · unfold drawImage
    rw [if_neg ha]
    simp only []
    by_cases hcap : MAX_LENGTH ≤ s.length
    · right
      right
      have hpos : 0 < s.length := by
        have : (0:ℕ) < MAX_LENGTH := by norm_num [MAX_LENGTH]
        omega
      have hfLen : (flush s).1.length = 0 := by rw [flush_pos s hpos]
      rw [if_pos hcap]
      refine ⟨hcap, ?_, ?_⟩
      · by_cases hr : (flush s).1.sbSize ≤ (flush s).1.length
        · rw [if_pos hr, hcoreLen]
          obtain ⟨hL, hO, hC, hN, hCol, hS⟩ := resizeSB_fields (flush s).1
          rw [hL, hfLen]
        · rw [if_neg hr, hcoreLen, hfLen]
      · rw [flush_pos s hpos]
        simp
    · right
      left
      rw [if_neg hcap]
      by_cases hr : s.sbSize ≤ s.length
      · rw [if_pos hr, hcoreLen]
        obtain ⟨hL, hO, hC, hN, hCol, hS⟩ := resizeSB_fields s
        rw [hL]
      · rw [if_neg hr, hcoreLen]


theorem Inv_setColor (s : RState) (c : Color) (h : Inv s) : Inv { s with color := c } :=
  ⟨h.hoff, h.hsize, h.hlen, h.hcap, h.hpow⟩

theorem cexRedBig_Inv : Inv cexRedBig :=
  Inv_setColor initialState _ initialState_Inv

theorem cexCapState_Inv : Inv cexCapState := by
  refine ⟨rfl, ?_, ?_, ?_, ⟨6, by show (16384 : ℕ) = 256 * 2 ^ 6; norm_num⟩⟩
  · show (Array.mkArray (16384 * 36) (0 : ℚ)).size = 16384 * 36
    rw [Array.size_mkArray]
  · show MAX_LENGTH ≤ 16384
    norm_num [MAX_LENGTH]
  · show MAX_LENGTH ≤ MAX_LENGTH
    exact le_refl _

theorem flush_preserves_off (s : RState)
    (h : s.sbOffset = s.length * (ELEMENT_SIZE * ELEMENTS_PER_QUAD)) :
    (flush s).1.sbOffset = (flush s).1.length * (ELEMENT_SIZE * ELEMENTS_PER_QUAD) := by
  by_cases h0 : 0 < s.length
  · rw [flush_pos s h0]
    simp
  · rw [flush_zero s (by omega)]
    exact h


/-! ## Claim theorems -/

/-- C1 counterexample: with draw color (1, 0, 0, 0.5) a drawImage call
stores 1 (the raw red channel), not r * a = 0.5, in the color slot of the
first vertex of the quad: the stream buffer does not hold a premultiplied
color. -/
theorem C1_counterexample :
    streamGet (drawImage (fun _ => 1) (fun _ => 0) cexRedBig cexImage
        0 0 1 1 0 0 1 1 0 0 0).1 2 = 1 ∧
    ¬ (streamGet (drawImage (fun _ => 1) (fun _ => 0) cexRedBig cexImage
        0 0 1 1 0 0 1 1 0 0 0).1 2 = cexRedBig.color.r * cexRedBig.color.a) := by
  have h := drawImage_slots (fun _ => 1) (fun _ => 0) cexRedBig cexImage
    0 0 1 1 0 0 1 1 0 0 0 cexRedBig_Inv
    (by rw [show cexRedBig.color.a = 1/2 from rfl]; norm_num)
    (by rw [show cexRedBig.length = 0 from rfl]; norm_num [MAX_LENGTH]) 2 (by norm_num)
  have hoff : cexRedBig.sbOffset = 0 := rfl
  rw [hoff] at h
  simp only [quadValAt, Nat.zero_add, Nat.reduceEqDiff, reduceIte] at h
  have hr : cexRedBig.color.r = 1 := rfl
  rw [hr] at h
  refine ⟨h, ?_⟩
  rw [h, show cexRedBig.color.r = 1 from rfl, show cexRedBig.color.a = 1/2 from rfl]
  norm_num

/-- C1 (amended): every drawImage call that writes a quad stores the draw
color RAW (r, g, b, a) in all four vertex records of the stream buffer; the
premultiplication of the RGB channels by alpha is performed by the vertex
shader (vColor = vec4(aColor.rgb * aColor.a, aColor.a)) at draw time, so a
draw color (1, 0, 0, 0.5) reaches the fragment stage as (0.5, 0, 0, 0.5). -/
theorem C1_color_raw_in_stream_premultiplied_in_shader (cf sf : ℚ → ℚ) (s : RState)
    (image : Image) (x y width height rx ry rw rh ang ox oy : ℚ)
    (hInv : Inv s) (ha : 1 / 256 ≤ s.color.a) (hlen : s.length < MAX_LENGTH) :
    (∀ v, v < 4 →
      streamGet (drawImage cf sf s image x y width height rx ry rw rh ang ox oy).1
          (s.sbOffset + v * 9 + 2) = s.color.r ∧
      streamGet (drawImage cf sf s image x y width height rx ry rw rh ang ox oy).1
          (s.sbOffset + v * 9 + 3) = s.color.g ∧
      streamGet (drawImage cf sf s image x y width height rx ry rw rh ang ox oy).1
          (s.sbOffset + v * 9 + 4) = s.color.b ∧
      streamGet (drawImage cf sf s image x y width height rx ry rw rh ang ox oy).1
          (s.sbOffset + v * 9 + 5) = s.color.a) ∧
    vertexShaderColor s.color =
      ⟨s.color.r * s.color.a, s.color.g * s.color.a, s.color.b * s.color.a, s.color.a⟩ ∧
    vertexShaderColor ⟨1, 0, 0, 1/2⟩ = ⟨1/2, 0, 0, 1/2⟩ := by
  have hs := drawImage_slots cf sf s image x y width height rx ry rw rh ang ox oy hInv ha hlen
  refine ⟨?_, rfl, by norm_num [vertexShaderColor]⟩
  intro v hv
  interval_cases v
  · exact ⟨by simpa [quadValAt] using hs 2 (by norm_num),
        by simpa [quadValAt] using hs 3 (by norm_num),
        by simpa [quadValAt] using hs 4 (by norm_num),
        by simpa [quadValAt] using hs 5 (by norm_num)⟩
  · exact ⟨by simpa [quadValAt] using hs 11 (by norm_num),
        by simpa [quadValAt] using hs 12 (by norm_num),
        by simpa [quadValAt] using hs 13 (by norm_num),
        by simpa [quadValAt] using hs 14 (by norm_num)⟩
  · exact ⟨by simpa [quadValAt] using hs 20 (by norm_num),
        by simpa [quadValAt] using hs 21 (by norm_num),
        by simpa [quadValAt] using hs 22 (by norm_num),
        by simpa [quadValAt] using hs 23 (by norm_num)⟩
  · exact ⟨by simpa [quadValAt] using hs 29 (by norm_num),
        by simpa [quadValAt] using hs 30 (by norm_num),
        by simpa [quadValAt] using hs 31 (by norm_num),
        by simpa [quadValAt] using hs 32 (by norm_num)⟩

theorem C1_witness :
    Inv cexRedBig ∧ 1 / 256 ≤ cexRedBig.color.a ∧ cexRedBig.length < MAX_LENGTH ∧
    ((∀ v, v < 4 →
      streamGet (drawImage (fun _ => 1) (fun _ => 0) cexRedBig cexImage
          0 0 1 1 0 0 1 1 0 0 0).1 (cexRedBig.sbOffset + v * 9 + 2) = cexRedBig.color.r ∧
      streamGet (drawImage (fun _ => 1) (fun _ => 0) cexRedBig cexImage
          0 0 1 1 0 0 1 1 0 0 0).1 (cexRedBig.sbOffset + v * 9 + 3) = cexRedBig.color.g ∧
      streamGet (drawImage (fun _ => 1) (fun _ => 0) cexRedBig cexImage
          0 0 1 1 0 0 1 1 0 0 0).1 (cexRedBig.sbOffset + v * 9 + 4) = cexRedBig.color.b ∧
      streamGet (drawImage (fun _ => 1) (fun _ => 0) cexRedBig cexImage
          0 0 1 1 0 0 1 1 0 0 0).1 (cexRedBig.sbOffset + v * 9 + 5) = cexRedBig.color.a) ∧
     vertexShaderColor cexRedBig.color =
       ⟨cexRedBig.color.r * cexRedBig.color.a, cexRedBig.color.g * cexRedBig.color.a,
        cexRedBig.color.b * cexRedBig.color.a, cexRedBig.color.a⟩ ∧
     vertexShaderColor ⟨1, 0, 0, 1/2⟩ = ⟨1/2, 0, 0, 1/2⟩) :=
  ⟨cexRedBig_Inv, by rw [show cexRedBig.color.a = 1/2 from rfl]; norm_num,
   by rw [show cexRedBig.length = 0 from rfl]; norm_num [MAX_LENGTH],
   C1_color_raw_in_stream_premultiplied_in_shader (fun _ => 1) (fun _ => 0) cexRedBig
     cexImage 0 0 1 1 0 0 1 1 0 0 0 cexRedBig_Inv
     (by rw [show cexRedBig.color.a = 1/2 from rfl]; norm_num)
     (by rw [show cexRedBig.length = 0 from rfl]; norm_num [MAX_LENGTH])⟩

/-- C3: a drawImage call made while the draw color alpha is below 1/256 is a
complete no-op: the resulting state is the input state (so pending quad
count, stream write offset, stream contents, texture cache and next-unit
counter are unchanged) and no GPU event (no upload, no buffer write, no
draw) is emitted. -/
theorem C3_transparent_noop (cf sf : ℚ → ℚ) (s : RState) (image : Image)
    (x y width height rx ry rw rh ang ox oy : ℚ)
    (ha : s.color.a < 1 / 256) :
    drawImage cf sf s image x y width height rx ry rw rh ang ox oy = (s, []) :=
  drawImage_transparent cf sf s image x y width height rx ry rw rh ang ox oy ha

theorem C3_witness :
    cexTransparentState.color.a < 1 / 256 ∧
    drawImage (fun _ => 1) (fun _ => 0) cexTransparentState cexImage
      0 0 1 1 0 0 1 1 0 0 0 = (cexTransparentState, []) :=
  ⟨by rw [show cexTransparentState.color.a = 0 from rfl]; norm_num,
   C3_transparent_noop (fun _ => 1) (fun _ => 0) cexTransparentState cexImage
     0 0 1 1 0 0 1 1 0 0 0
     (by rw [show cexTransparentState.color.a = 0 from rfl]; norm_num)⟩

/-- C5: uploadImage resolves each distinct image handle to one stable unit:
a repeat call with a cached handle returns the cached unit with zero
uploads and an unchanged state; a fresh handle is assigned unit nextUnit
(the number of previously seen distinct handles, hence handle number K gets
unit K-1) with exactly one texture upload, with no bound check against
maxTextures; existing cache entries are never changed. -/
theorem C5_uploadImage_cache (s : RState) (img : Image) :
    (∀ u, cacheLookup s.cache img.id = some u → uploadImage s img = (u, s, [])) ∧
    (cacheLookup s.cache img.id = none →
      uploadImage s img =
        (s.nextUnit,
         { s with nextUnit := s.nextUnit + 1, cache := s.cache ++ [(img.id, s.nextUnit)] },
         [GLEvent.texImage2D s.nextUnit img.id])) ∧
    (CacheInv s → cacheLookup s.cache img.id = none →
      (uploadImage s img).1 = s.cache.length ∧ CacheInv (uploadImage s img).2.1) ∧
    (∀ k u, cacheLookup s.cache k = some u →
      cacheLookup ((uploadImage s img).2.1).cache k = some u) := by
  refine ⟨?_, ?_, ?_, ?_⟩
  · intro u h
    exact uploadImage_hit s img u h
  · intro h
    exact uploadImage_miss s img h
  · intro hc h
    constructor
    · rw [uploadImage_miss s img h]
      rw [CacheInv_length s hc]
    · exact uploadImage_CacheInv s img hc
  · intro k u h
    cases hf : cacheLookup s.cache img.id with
    | some u2 =>
        rw [uploadImage_hit s img u2 hf]
        exact h
    | none =>
        rw [uploadImage_miss s img hf]
        exact cacheLookup_append s.cache (img.id, s.nextUnit) k u h

theorem C5_witness :
    cacheLookup cexCacheState.cache 5 = some 0 ∧
    uploadImage cexCacheState cexImage5 = (0, cexCacheState, []) ∧
    cacheLookup cexCacheState.cache 7 = none ∧
    CacheInv cexCacheState ∧
    (uploadImage cexCacheState cexImage7).1 = cexCacheState.cache.length ∧
    cacheLookup cexOverState.cache 7 = none ∧
    uploadImage cexOverState cexImage7 =
      (30, { cexOverState with nextUnit := 31, cache := [(7, 30)] },
       [GLEvent.texImage2D 30 7]) := by
  have h1 : cacheLookup cexCacheState.cache 5 = some 0 := by decide
  have h2 : cacheLookup cexCacheState.cache 7 = none := by decide
  have h3 : CacheInv cexCacheState := by
    show cexCacheState.cache.map Prod.snd = List.range cexCacheState.nextUnit
    rfl
  have h4 : cacheLookup cexOverState.cache 7 = none := by decide
  refine ⟨h1, (C5_uploadImage_cache cexCacheState cexImage5).1 0 h1, h2, h3,
    ((C5_uploadImage_cache cexCacheState cexImage7).2.2.1 h3 h2).1, h4, ?_⟩
  have h5 := (C5_uploadImage_cache cexOverState cexImage7).2.1 h4
  rw [h5]
  rfl

/-- C8: the index table has exactly MAX_LENGTH * 6 entries; entry i equals
pattern[i mod 6] + floor(i/6) * 4 over the triangulation pattern
[0,1,2,2,1,3]; every entry is below 2^16 (because maxQuads * 4 = 64000 is at
most 65536, the Uint16Array conversion is the identity on it), and entry i
addresses a vertex of quad floor(i/6). -/
theorem C8_createIB_spec :
    createIB.length = MAX_LENGTH * INDICES_PER_QUAD ∧
    MAX_LENGTH * ELEMENTS_PER_QUAD ≤ 65536 ∧
    createIB16 = createIB ∧
    (∀ i, i < MAX_LENGTH * INDICES_PER_QUAD →
      createIB.getD i 0 =
        [0, 1, 2, 2, 1, 3].getD (i % INDICES_PER_QUAD) 0 +
          i / INDICES_PER_QUAD * ELEMENTS_PER_QUAD ∧
      createIB.getD i 0 < 65536 ∧
      i / INDICES_PER_QUAD * ELEMENTS_PER_QUAD ≤ createIB.getD i 0 ∧
      createIB.getD i 0 < i / INDICES_PER_QUAD * ELEMENTS_PER_QUAD + ELEMENTS_PER_QUAD) := by
  refine ⟨createIB_length, by norm_num [MAX_LENGTH, ELEMENTS_PER_QUAD], createIB16_eq, ?_⟩
  intro i hi
  obtain ⟨b1, b2, b3⟩ := createIB_entry_lt i hi
  exact ⟨createIB_get i hi, b1, b2, b3⟩

theorem C8_witness :
    (7 : ℕ) < MAX_LENGTH * INDICES_PER_QUAD ∧
    (createIB.getD 7 0 =
        [0, 1, 2, 2, 1, 3].getD (7 % INDICES_PER_QUAD) 0 +
          7 / INDICES_PER_QUAD * ELEMENTS_PER_QUAD ∧
      createIB.getD 7 0 < 65536 ∧
      7 / INDICES_PER_QUAD * ELEMENTS_PER_QUAD ≤ createIB.getD 7 0 ∧
      createIB.getD 7 0 < 7 / INDICES_PER_QUAD * ELEMENTS_PER_QUAD + ELEMENTS_PER_QUAD) :=
  ⟨by norm_num [MAX_LENGTH, INDICES_PER_QUAD],
   C8_createIB_spec.2.2.2 7 (by norm_num [MAX_LENGTH, INDICES_PER_QUAD])⟩


/-- C2: starting from an empty batch with a visible draw color, any sequence
of fewer than MAX_LENGTH rotation-free drawImage calls accumulates exactly
one quad per call, in call order, each matching the direct arithmetic of its
inputs (positions x, x+w, y, y+h in the fixed winding order, the draw color
at every vertex, and UVs obtained by dividing region coordinates by the
image dimensions); the subsequent flush uploads exactly the written N-quad
segment and issues one draw of N * 6 indices. -/
theorem C2_batch_spec (cf sf : ℚ → ℚ) (s : RState) (calls : List DrawCall)
    (hInv : Inv s) (hempty : s.length = 0) (ha : 1 / 256 ≤ s.color.a)
    (hN : calls.length < MAX_LENGTH) :
    (runCalls cf sf s calls).length = calls.length ∧
    (∀ k, (hk : k < calls.length) →
      quadMatches (runCalls cf sf s calls) k s.color (calls[k])) ∧
    (0 < calls.length →
      (flush (runCalls cf sf s calls)).2 =
        [GLEvent.bufferSubData (((runCalls cf sf s calls).stream.extract 0
            (calls.length * ELEMENT_SIZE * ELEMENTS_PER_QUAD)).toList),
         GLEvent.drawElements (calls.length * INDICES_PER_QUAD)]) := by
  obtain ⟨hI, hL, hC, hP, hQ⟩ := runCalls_spec cf sf calls s hInv ha (by omega)
  have hL0 : (runCalls cf sf s calls).length = calls.length := by
    rw [hL, hempty]
    omega
  refine ⟨hL0, ?_, ?_⟩
  · intro k hk
    have h := hQ k hk
    rw [hempty] at h
    simpa using h
  · intro hpos
    rw [flush_pos _ (by omega), hL0]

theorem C2_witness :
    Inv initialState ∧ initialState.length = 0 ∧ 1 / 256 ≤ initialState.color.a ∧
    cexCalls.length < MAX_LENGTH ∧
    ((runCalls (fun _ => 1) (fun _ => 0) initialState cexCalls).length = cexCalls.length ∧
     (∀ k, (hk : k < cexCalls.length) →
       quadMatches (runCalls (fun _ => 1) (fun _ => 0) initialState cexCalls) k
         initialState.color (cexCalls[k])) ∧
     (0 < cexCalls.length →
       (flush (runCalls (fun _ => 1) (fun _ => 0) initialState cexCalls)).2 =
         [GLEvent.bufferSubData
            (((runCalls (fun _ => 1) (fun _ => 0) initialState cexCalls).stream.extract 0
               (cexCalls.length * ELEMENT_SIZE * ELEMENTS_PER_QUAD)).toList),
          GLEvent.drawElements (cexCalls.length * INDICES_PER_QUAD)])) :=
  ⟨initialState_Inv, rfl,
   by rw [show initialState.color.a = 1 from rfl]; norm_num,
   by rw [show cexCalls.length = 1 from rfl]; norm_num [MAX_LENGTH],
   C2_batch_spec (fun _ => 1) (fun _ => 0) initialState cexCalls initialState_Inv rfl
     (by rw [show initialState.color.a = 1 from rfl]; norm_num)
     (by rw [show cexCalls.length = 1 from rfl]; norm_num [MAX_LENGTH])⟩

/-- C4: a drawImage call arriving with the pending quad count at the cap
(MAX_LENGTH = 16000) and a visible draw color first flushes (one vertex
upload and one draw call of MAX_LENGTH * 6 indices, with the counters
reset), then writes the triggering quad at the start of the now-empty
buffer (offset 0, pending count 1); consequently every reachable state has
at most MAX_LENGTH pending quads, and a flush never draws more indices than
the index table holds. -/
theorem C4_cap_flush (cf sf : ℚ → ℚ) (s : RState) (image : Image)
    (x y width height rx ry rw rh ang ox oy : ℚ)
    (hInv : Inv s) (ha : 1 / 256 ≤ s.color.a) (hc : s.length = MAX_LENGTH) :
    ((drawImage cf sf s image x y width height rx ry rw rh ang ox oy).2 =
      GLEvent.bufferSubData
          ((s.stream.extract 0 (MAX_LENGTH * ELEMENT_SIZE * ELEMENTS_PER_QUAD)).toList) ::
        GLEvent.drawElements (MAX_LENGTH * INDICES_PER_QUAD) ::
        (uploadImage (flush s).1 image).2.2 ∧
     (drawImage cf sf s image x y width height rx ry rw rh ang ox oy).1.length = 1 ∧
     (drawImage cf sf s image x y width height rx ry rw rh ang ox oy).1.sbOffset = 36 ∧
     streamGet (drawImage cf sf s image x y width height rx ry rw rh ang ox oy).1 0 =
       (quadCorners cf sf x y width height ang ox oy).1.1) ∧
    (∀ t, Reachable cf sf t → t.length ≤ MAX_LENGTH) ∧
    (∀ t, Reachable cf sf t → t.length * INDICES_PER_QUAD ≤ createIB.length) := by
  obtain ⟨hEv, hL1, hO1, hSl⟩ :=
    drawImage_cap_spec cf sf s image x y width height rx ry rw rh ang ox oy hInv ha hc
  rw [hc] at hEv
  refine ⟨⟨hEv, hL1, hO1, ?_⟩, ?_, ?_⟩
  · have h0 := hSl 0 (by norm_num)
    simpa [quadValAt] using h0
  · intro t ht
    exact (reachable_Inv cf sf t ht).hcap
  · intro t ht
    rw [createIB_length]
    have hcapt := (reachable_Inv cf sf t ht).hcap
    have h1 : t.length ≤ 16000 := by
      rw [show MAX_LENGTH = 16000 from rfl] at hcapt
      exact hcapt
    rw [show INDICES_PER_QUAD = 6 from rfl, show MAX_LENGTH = 16000 from rfl]
    omega

theorem C4_witness :
    Inv cexCapState ∧ 1 / 256 ≤ cexCapState.color.a ∧ cexCapState.length = MAX_LENGTH ∧
    (((drawImage (fun _ => 1) (fun _ => 0) cexCapState cexImage
          0 0 1 1 0 0 1 1 0 0 0).2 =
        GLEvent.bufferSubData
            ((cexCapState.stream.extract 0
               (MAX_LENGTH * ELEMENT_SIZE * ELEMENTS_PER_QUAD)).toList) ::
          GLEvent.drawElements (MAX_LENGTH * INDICES_PER_QUAD) ::
          (uploadImage (flush cexCapState).1 cexImage).2.2 ∧
      (drawImage (fun _ => 1) (fun _ => 0) cexCapState cexImage
          0 0 1 1 0 0 1 1 0 0 0).1.length = 1 ∧
      (drawImage (fun _ => 1) (fun _ => 0) cexCapState cexImage
          0 0 1 1 0 0 1 1 0 0 0).1.sbOffset = 36 ∧
      streamGet (drawImage (fun _ => 1) (fun _ => 0) cexCapState cexImage
          0 0 1 1 0 0 1 1 0 0 0).1 0 =
        (quadCorners (fun _ => 1) (fun _ => 0) 0 0 1 1 0 0 0).1.1) ∧
     (∀ t, Reachable (fun _ => 1) (fun _ => 0) t → t.length ≤ MAX_LENGTH) ∧
     (∀ t, Reachable (fun _ => 1) (fun _ => 0) t → t.length * INDICES_PER_QUAD ≤ createIB.length)) :=
  ⟨cexCapState_Inv,
   by rw [show cexCapState.color.a = 1 from rfl]; norm_num,
   rfl,
   C4_cap_flush (fun _ => 1) (fun _ => 0) cexCapState cexImage 0 0 1 1 0 0 1 1 0 0 0
     cexCapState_Inv (by rw [show cexCapState.color.a = 1 from rfl]; norm_num) rfl⟩

/-- C6: the stream buffer capacity starts at 256 quads and is always
256 times a power of two (so a power of two); resizeSB exactly doubles it;
growth happens exactly when a call would write past the capacity; and
growing preserves every previously written element (in particular the
pending length * 36 prefix holding the written quads). -/
theorem C6_stream_growth (cf sf : ℚ → ℚ) :
    initialState.sbSize = 256 ∧
    (∀ s, Reachable cf sf s → ∃ k, s.sbSize = 256 * 2 ^ k) ∧
    (∀ s : RState, (resizeSB s).sbSize = s.sbSize * 2) ∧
    (∀ s : RState, s.stream.size = s.sbSize * 36 →
      ∀ i, i < s.stream.size → streamGet (resizeSB s) i = streamGet s i) ∧
    (∀ s : RState, Inv s →
      ∀ i, i < s.length * 36 → streamGet (resizeSB s) i = streamGet s i) ∧
    (∀ (s : RState) (image : Image) (x y width height rx ry rw rh ang ox oy : ℚ),
      1 / 256 ≤ s.color.a → s.length < MAX_LENGTH →
      ((s.length < s.sbSize →
        (drawImage cf sf s image x y width height rx ry rw rh ang ox oy).1.sbSize = s.sbSize) ∧
       (s.sbSize ≤ s.length →
        (drawImage cf sf s image x y width height rx ry rw rh ang ox oy).1.sbSize =
          s.sbSize * 2))) := by
  refine ⟨rfl, ?_, ?_, ?_, ?_, ?_⟩
  · intro s hs
    exact (reachable_Inv cf sf s hs).hpow
  · intro s
    exact (resizeSB_fields s).2.2.2.2.2
  · intro s hsize i hi
    exact resizeSB_preserves s hsize i hi
  · intro s hInv i hi
    refine resizeSB_preserves s hInv.hsize i ?_
    have h1 := hInv.hsize
    have h2 := hInv.hlen
    omega
  · intro s image x y width height rx ry rw rh ang ox oy ha hlen
    rw [drawImage_eq_core cf sf s image x y width height rx ry rw rh ang ox oy ha hlen]
    constructor
    · intro hroom
      rw [if_neg (by omega)]
      exact (drawImageCore_scalars cf sf s image x y width height rx ry rw rh ang ox oy).2.2.1
    · intro hfull
      rw [if_pos hfull]
      have h := (drawImageCore_scalars cf sf (resizeSB s) image x y width height
        rx ry rw rh ang ox oy).2.2.1
      rw [h]
      exact (resizeSB_fields s).2.2.2.2.2

theorem C6_witness :
    initialState.stream.size = initialState.sbSize * 36 ∧
    (0 : ℕ) < initialState.stream.size ∧
    (initialState.sbSize = 256 ∧
     (resizeSB cexPendingState).sbSize = cexPendingState.sbSize * 2 ∧
     streamGet (resizeSB initialState) 0 = streamGet initialState 0 ∧
     (∃ k, initialState.sbSize = 256 * 2 ^ k)) := by
  have hsize : initialState.stream.size = initialState.sbSize * 36 := initialState_Inv.hsize
  have hpos : (0 : ℕ) < initialState.stream.size := by
    rw [hsize, show initialState.sbSize = 256 from rfl]
    norm_num
  refine ⟨hsize, hpos,
    (C6_stream_growth (fun _ => 1) (fun _ => 0)).1,
    (C6_stream_growth (fun _ => 1) (fun _ => 0)).2.2.1 cexPendingState,
    (C6_stream_growth (fun _ => 1) (fun _ => 0)).2.2.2.1 initialState hsize 0 hpos,
    (C6_stream_growth (fun _ => 1) (fun _ => 0)).2.1 initialState Reachable.init⟩

/-- C7 counterexample: reset() on a state with one pending quad sets the
pending length to 0 while emitting no draw call, so the pending length is
not set to 0 exclusively by flushes. -/
theorem C7_counterexample :
    cexPendingState.length = 1 ∧
    (reset cexPendingState).1.length = 0 ∧
    (reset cexPendingState).2 = [] :=
  ⟨rfl, rfl, rfl⟩

/-- C7 (amended): flush with zero pending quads is a no-op; with pending
quads it uploads exactly the written segment, issues one draw of
length * 6 indices and zeroes the counters; a flush never changes the
capacity, the backing store, or the texture cache; the pending length is
set to 0 exactly by a flush or by reset() (which emits no GPU event); a
drawImage call otherwise only ever keeps or increments the pending length,
reaching a smaller value only through its internal cap flush, which emits a
draw call. -/
theorem C7_flush_spec :
    (∀ s : RState, s.length = 0 → flush s = (s, [])) ∧
    (∀ s : RState, 0 < s.length →
      flush s =
        ({ s with sbOffset := 0, length := 0 },
         [GLEvent.bufferSubData
            ((s.stream.extract 0 (s.length * ELEMENT_SIZE * ELEMENTS_PER_QUAD)).toList),
          GLEvent.drawElements (s.length * INDICES_PER_QUAD)])) ∧
    (∀ s : RState, (flush s).1.sbSize = s.sbSize ∧ (flush s).1.stream = s.stream ∧
      (flush s).1.cache = s.cache ∧ (flush s).1.nextUnit = s.nextUnit) ∧
    (∀ s : RState, (reset s).1.length = 0 ∧ (reset s).2 = []) ∧
    (∀ (cf sf : ℚ → ℚ) (s : RState) (image : Image)
        (x y width height rx ry rw rh ang ox oy : ℚ),
      (drawImage cf sf s image x y width height rx ry rw rh ang ox oy).1.length = s.length ∨
      (drawImage cf sf s image x y width height rx ry rw rh ang ox oy).1.length = s.length + 1 ∨
      (MAX_LENGTH ≤ s.length ∧
        (drawImage cf sf s image x y width height rx ry rw rh ang ox oy).1.length = 1 ∧
        GLEvent.drawElements (s.length * INDICES_PER_QUAD) ∈
          (drawImage cf sf s image x y width height rx ry rw rh ang ox oy).2)) := by
  refine ⟨flush_zero, flush_pos, ?_, ?_, ?_⟩
  · intro s
    by_cases h0 : 0 < s.length
    · rw [flush_pos s h0]
      exact ⟨rfl, rfl, rfl, rfl⟩
    · rw [flush_zero s (by omega)]
      exact ⟨rfl, rfl, rfl, rfl⟩
  · intro s
    exact ⟨rfl, rfl⟩
  · intro cf sf s image x y width height rx ry rw rh ang ox oy
    exact drawImage_length_cases cf sf s image x y width height rx ry rw rh ang ox oy

theorem C7_witness :
    initialState.length = 0 ∧
    flush initialState = (initialState, []) ∧
    (0 : ℕ) < cexPendingState.length ∧
    flush cexPendingState =
      ({ cexPendingState with sbOffset := 0, length := 0 },
       [GLEvent.bufferSubData
          ((cexPendingState.stream.extract 0
             (cexPendingState.length * ELEMENT_SIZE * ELEMENTS_PER_QUAD)).toList),
        GLEvent.drawElements (cexPendingState.length * INDICES_PER_QUAD)]) ∧
    (reset cexPendingState).1.length = 0 ∧ (reset cexPendingState).2 = [] :=
  ⟨rfl,
   C7_flush_spec.1 initialState rfl,
   by rw [show cexPendingState.length = 1 from rfl]; norm_num,
   C7_flush_spec.2.1 cexPendingState
     (by rw [show cexPendingState.length = 1 from rfl]; norm_num),
   C7_flush_spec.2.2.2.1 cexPendingState⟩

/-- C10: the stream write offset always equals the pending quad count times
the 36-float quad record size: it holds in the constructor state, it is
preserved by drawImage (including its internal flush and growth paths), by
flush and by reset, and therefore holds in every reachable state, so each
new quad is written immediately after the pending ones. -/
theorem C10_offset_invariant (cf sf : ℚ → ℚ) :
    initialState.sbOffset = initialState.length * (ELEMENT_SIZE * ELEMENTS_PER_QUAD) ∧
    (∀ (s : RState) (image : Image) (x y width height rx ry rw rh ang ox oy : ℚ),
      s.sbOffset = s.length * (ELEMENT_SIZE * ELEMENTS_PER_QUAD) →
      (drawImage cf sf s image x y width height rx ry rw rh ang ox oy).1.sbOffset =
        (drawImage cf sf s image x y width height rx ry rw rh ang ox oy).1.length *
          (ELEMENT_SIZE * ELEMENTS_PER_QUAD)) ∧
    (∀ s : RState, s.sbOffset = s.length * (ELEMENT_SIZE * ELEMENTS_PER_QUAD) →
      (flush s).1.sbOffset = (flush s).1.length * (ELEMENT_SIZE * ELEMENTS_PER_QUAD)) ∧
    (∀ s : RState,
      (reset s).1.sbOffset = (reset s).1.length * (ELEMENT_SIZE * ELEMENTS_PER_QUAD)) ∧
    (∀ s, Reachable cf sf s →
      s.sbOffset = s.length * (ELEMENT_SIZE * ELEMENTS_PER_QUAD)) := by
  refine ⟨rfl, ?_, ?_, ?_, ?_⟩
  · intro s image x y width height rx ry rw rh ang ox oy h
    exact drawImage_preserves_off cf sf s image x y width height rx ry rw rh ang ox oy h
  · intro s h
    exact flush_preserves_off s h
  · intro s
    show (0 : ℕ) = 0 * (ELEMENT_SIZE * ELEMENTS_PER_QUAD)
    omega
  · intro s hs
    rw [QUAD_FLOATS]
    exact (reachable_Inv cf sf s hs).hoff

theorem C10_witness :
    cexPendingState.sbOffset = cexPendingState.length * (ELEMENT_SIZE * ELEMENTS_PER_QUAD) ∧
    (flush cexPendingState).1.sbOffset =
      (flush cexPendingState).1.length * (ELEMENT_SIZE * ELEMENTS_PER_QUAD) ∧
    (reset cexPendingState).1.sbOffset =
      (reset cexPendingState).1.length * (ELEMENT_SIZE * ELEMENTS_PER_QUAD) ∧
    initialState.sbOffset = initialState.length * (ELEMENT_SIZE * ELEMENTS_PER_QUAD) :=
  ⟨rfl,
   (C10_offset_invariant (fun _ => 1) (fun _ => 0)).2.2.1 cexPendingState rfl,
   (C10_offset_invariant (fun _ => 1) (fun _ => 0)).2.2.2.1 cexPendingState,
   (C10_offset_invariant (fun _ => 1) (fun _ => 0)).2.2.2.2 initialState Reachable.init⟩


/-- C9: for a drawImage call with nonzero rotation angle, the four stored
corner positions are the axis-aligned rectangle corners of (x, y, width,
height) each rotated about the pivot (x + rotateOriginX, y + rotateOriginY)
by the standard counter-clockwise 2D rotation (translate the pivot to the
origin, rotate, translate back, with cosine cf(ang) and sine sf(ang)); with
angle exactly 0, the stored corners are the axis-aligned corners with no
transform applied. -/
theorem C9_rotation_spec (cf sf : ℚ → ℚ) (s : RState) (image : Image)
    (x y width height rx ry rw rh ang ox oy : ℚ)
    (hInv : Inv s) (ha : 1 / 256 ≤ s.color.a) (hlen : s.length < MAX_LENGTH) :
    (ang ≠ 0 →
      streamGet (drawImage cf sf s image x y width height rx ry rw rh ang ox oy).1 (s.sbOffset + 0) =
        (rotateAround (cf ang) (sf ang) (x + ox) (y + oy) (x, y)).1 ∧
      streamGet (drawImage cf sf s image x y width height rx ry rw rh ang ox oy).1 (s.sbOffset + 1) =
        (rotateAround (cf ang) (sf ang) (x + ox) (y + oy) (x, y)).2 ∧
      streamGet (drawImage cf sf s image x y width height rx ry rw rh ang ox oy).1 (s.sbOffset + 9) =
        (rotateAround (cf ang) (sf ang) (x + ox) (y + oy) (x + width, y)).1 ∧
      streamGet (drawImage cf sf s image x y width height rx ry rw rh ang ox oy).1 (s.sbOffset + 10) =
        (rotateAround (cf ang) (sf ang) (x + ox) (y + oy) (x + width, y)).2 ∧
      streamGet (drawImage cf sf s image x y width height rx ry rw rh ang ox oy).1 (s.sbOffset + 18) =
        (rotateAround (cf ang) (sf ang) (x + ox) (y + oy) (x, y + height)).1 ∧
      streamGet (drawImage cf sf s image x y width height rx ry rw rh ang ox oy).1 (s.sbOffset + 19) =
        (rotateAround (cf ang) (sf ang) (x + ox) (y + oy) (x, y + height)).2 ∧
      streamGet (drawImage cf sf s image x y width height rx ry rw rh ang ox oy).1 (s.sbOffset + 27) =
        (rotateAround (cf ang) (sf ang) (x + ox) (y + oy) (x + width, y + height)).1 ∧
      streamGet (drawImage cf sf s image x y width height rx ry rw rh ang ox oy).1 (s.sbOffset + 28) =
        (rotateAround (cf ang) (sf ang) (x + ox) (y + oy) (x + width, y + height)).2) ∧
    (ang = 0 →
      streamGet (drawImage cf sf s image x y width height rx ry rw rh ang ox oy).1 (s.sbOffset + 0) = x ∧
      streamGet (drawImage cf sf s image x y width height rx ry rw rh ang ox oy).1 (s.sbOffset + 1) = y ∧
      streamGet (drawImage cf sf s image x y width height rx ry rw rh ang ox oy).1 (s.sbOffset + 9) = x + width ∧
      streamGet (drawImage cf sf s image x y width height rx ry rw rh ang ox oy).1 (s.sbOffset + 10) = y ∧
      streamGet (drawImage cf sf s image x y width height rx ry rw rh ang ox oy).1 (s.sbOffset + 18) = x ∧
      streamGet (drawImage cf sf s image x y width height rx ry rw rh ang ox oy).1 (s.sbOffset + 19) = y + height ∧
      streamGet (drawImage cf sf s image x y width height rx ry rw rh ang ox oy).1 (s.sbOffset + 27) = x + width ∧
      streamGet (drawImage cf sf s image x y width height rx ry rw rh ang ox oy).1 (s.sbOffset + 28) = y + height) := by
  have hs := drawImage_slots cf sf s image x y width height rx ry rw rh ang ox oy hInv ha hlen
  constructor
  · intro hang
    have hc := quadCorners_rot cf sf x y width height ang ox oy hang
    refine ⟨?_, ?_, ?_, ?_, ?_, ?_, ?_, ?_⟩
    · have h := hs 0 (by norm_num)
      rw [hc] at h
      simpa [quadValAt] using h
    · have h := hs 1 (by norm_num)
      rw [hc] at h
      simpa [quadValAt] using h
    · have h := hs 9 (by norm_num)
      rw [hc] at h
      simpa [quadValAt] using h
    · have h := hs 10 (by norm_num)
      rw [hc] at h
      simpa [quadValAt] using h
    · have h := hs 18 (by norm_num)
      rw [hc] at h
      simpa [quadValAt] using h
    · have h := hs 19 (by norm_num)
      rw [hc] at h
      simpa [quadValAt] using h
    · have h := hs 27 (by norm_num)
      rw [hc] at h
      simpa [quadValAt] using h
    · have h := hs 28 (by norm_num)
      rw [hc] at h
      simpa [quadValAt] using h
  · intro hang
    subst hang
    have hc := quadCorners_zero cf sf x y width height ox oy
    refine ⟨?_, ?_, ?_, ?_, ?_, ?_, ?_, ?_⟩
    · have h := hs 0 (by norm_num)
      rw [hc] at h
      simpa [quadValAt] using h
    · have h := hs 1 (by norm_num)
      rw [hc] at h
      simpa [quadValAt] using h
    · have h := hs 9 (by norm_num)
      rw [hc] at h
      simpa [quadValAt] using h
    · have h := hs 10 (by norm_num)
      rw [hc] at h
      simpa [quadValAt] using h
    · have h := hs 18 (by norm_num)
      rw [hc] at h
      simpa [quadValAt] using h
    · have h := hs 19 (by norm_num)
      rw [hc] at h
      simpa [quadValAt] using h
    · have h := hs 27 (by norm_num)
      rw [hc] at h
      simpa [quadValAt] using h
    · have h := hs 28 (by norm_num)
      rw [hc] at h
      simpa [quadValAt] using h

theorem C9_witness :
    Inv initialState ∧ 1 / 256 ≤ initialState.color.a ∧
    initialState.length < MAX_LENGTH ∧ ((1 : ℚ) ≠ 0) ∧
    (      streamGet (drawImage (fun _ => (3:ℚ)/5) (fun _ => (4:ℚ)/5) initialState cexImage 0 0 2 2 0 0 2 2 1 1 1).1 (initialState.sbOffset + 0) =
        (rotateAround ((fun _ => (3:ℚ)/5) 1) ((fun _ => (4:ℚ)/5) 1) ((0:ℚ) + 1) ((0:ℚ) + 1) ((0:ℚ), (0:ℚ))).1 ∧
      streamGet (drawImage (fun _ => (3:ℚ)/5) (fun _ => (4:ℚ)/5) initialState cexImage 0 0 2 2 0 0 2 2 1 1 1).1 (initialState.sbOffset + 1) =
        (rotateAround ((fun _ => (3:ℚ)/5) 1) ((fun _ => (4:ℚ)/5) 1) ((0:ℚ) + 1) ((0:ℚ) + 1) ((0:ℚ), (0:ℚ))).2 ∧
      streamGet (drawImage (fun _ => (3:ℚ)/5) (fun _ => (4:ℚ)/5) initialState cexImage 0 0 2 2 0 0 2 2 1 1 1).1 (initialState.sbOffset + 9) =
        (rotateAround ((fun _ => (3:ℚ)/5) 1) ((fun _ => (4:ℚ)/5) 1) ((0:ℚ) + 1) ((0:ℚ) + 1) ((0:ℚ) + 2, (0:ℚ))).1 ∧
      streamGet (drawImage (fun _ => (3:ℚ)/5) (fun _ => (4:ℚ)/5) initialState cexImage 0 0 2 2 0 0 2 2 1 1 1).1 (initialState.sbOffset + 10) =
        (rotateAround ((fun _ => (3:ℚ)/5) 1) ((fun _ => (4:ℚ)/5) 1) ((0:ℚ) + 1) ((0:ℚ) + 1) ((0:ℚ) + 2, (0:ℚ))).2 ∧
      streamGet (drawImage (fun _ => (3:ℚ)/5) (fun _ => (4:ℚ)/5) initialState cexImage 0 0 2 2 0 0 2 2 1 1 1).1 (initialState.sbOffset + 18) =
        (rotateAround ((fun _ => (3:ℚ)/5) 1) ((fun _ => (4:ℚ)/5) 1) ((0:ℚ) + 1) ((0:ℚ) + 1) ((0:ℚ), (0:ℚ) + 2)).1 ∧
      streamGet (drawImage (fun _ => (3:ℚ)/5) (fun _ => (4:ℚ)/5) initialState cexImage 0 0 2 2 0 0 2 2 1 1 1).1 (initialState.sbOffset + 19) =
        (rotateAround ((fun _ => (3:ℚ)/5) 1) ((fun _ => (4:ℚ)/5) 1) ((0:ℚ) + 1) ((0:ℚ) + 1) ((0:ℚ), (0:ℚ) + 2)).2 ∧
      streamGet (drawImage (fun _ => (3:ℚ)/5) (fun _ => (4:ℚ)/5) initialState cexImage 0 0 2 2 0 0 2 2 1 1 1).1 (initialState.sbOffset + 27) =
        (rotateAround ((fun _ => (3:ℚ)/5) 1) ((fun _ => (4:ℚ)/5) 1) ((0:ℚ) + 1) ((0:ℚ) + 1) ((0:ℚ) + 2, (0:ℚ) + 2)).1 ∧
      streamGet (drawImage (fun _ => (3:ℚ)/5) (fun _ => (4:ℚ)/5) initialState cexImage 0 0 2 2 0 0 2 2 1 1 1).1 (initialState.sbOffset + 28) =
        (rotateAround ((fun _ => (3:ℚ)/5) 1) ((fun _ => (4:ℚ)/5) 1) ((0:ℚ) + 1) ((0:ℚ) + 1) ((0:ℚ) + 2, (0:ℚ) + 2)).2) := by
  have h := C9_rotation_spec (fun _ => (3:ℚ)/5) (fun _ => (4:ℚ)/5) initialState cexImage
    0 0 2 2 0 0 2 2 1 1 1 initialState_Inv
    (by rw [show initialState.color.a = 1 from rfl]; norm_num)
    (by rw [show initialState.length = 0 from rfl]; norm_num [MAX_LENGTH])
  exact ⟨initialState_Inv,
    by rw [show initialState.color.a = 1 from rfl]; norm_num,
    by rw [show initialState.length = 0 from rfl]; norm_num [MAX_LENGTH],
    by norm_num,
    h.1 (by norm_num)⟩

end WebGL2D
